import Mathlib

/-!
Verification development for the `dim_mod_sim` dimensional-modeling training
simulator.  Python sources under `src/dim_mod_sim/` are shallowly embedded:
pure functions become Lean functions, stateful code threads explicit state,
fallible code returns `Except`.  Machine integers are modelled as `Int`
(Python integers are unbounded); dates are modelled as day numbers (`Int`)
and timestamps as an abstract totally ordered `Int` clock.
-/

namespace DimModSim

/-- Python's substring test `pat in hay` (for `str`). -/
def strContainsList : List Char → List Char → Bool
  | [], p => p.isEmpty
  | h :: t, p => p.isPrefixOf (h :: t) || strContainsList t p

/-- `strContains hay pat` models Python `pat in hay`. -/
def strContains (hay pat : String) : Bool :=
  strContainsList hay.toList pat.toList

/-- Python `str.lower()` (ASCII, as all strings in this code base are). -/
def strToLower (s : String) : String :=
  String.mk (s.toList.map Char.toLower)

/-- Python `str.isspace` characters stripped by `str.strip()`. -/
def isPySpace (c : Char) : Bool :=
  c = ' ' || c = '\t' || c = '\n' || c = '\r' || c = '\x0b' || c = '\x0c'

/-- Python `str.strip()`. -/
def strTrim (s : String) : String :=
  String.mk (((s.toList.dropWhile isPySpace).reverse.dropWhile
    isPySpace).reverse)

/-- Python `str.endswith(suffix)`. -/
def strEndsWith (s suffix : String) : Bool :=
  suffix.toList.reverse.isPrefixOf s.toList.reverse

/-- Python falsiness of a `str` (`not s`). -/
def strIsEmpty (s : String) : Bool := s.toList.isEmpty

/-- Python `repr` of a list of strings, e.g. `['a', 'b']`
(used inside f-string interpolations of deduction reasons). -/
def pyListRepr (l : List String) : String :=
  "[" ++ String.intercalate ", " (l.map (fun s => "\x27" ++ s ++ "\x27")) ++ "]"

/-! ## `core/random.py` — the Deterministic Random Source

`SeededRandom` wraps `random.Random`.  The Mersenne-Twister internals are
not modelled; instead the internal `_rng` state is an abstract `Nat` that
every primitive draw advances through an abstract transition supplied by an
`RngModel`.  What *is* modelled faithfully from the source is the
information flow: every draw method calls only `self._rng`, and `fork`
reads only `self.seed` and the namespace string. -/

/-- The primitive draw operations of `SeededRandom`
(`choice`, `choices`, `weighted_choice`, `boolean`, `integer`, `uniform`,
`sample`, `shuffle`, `gauss`, `triangular`): each one delegates to the
wrapped `random.Random` instance `self._rng`. -/
inductive DrawOp where
  | choice
  | choices (k : Nat)
  | weightedChoice
  | boolean
  | integer (lo hi : Int)
  | uniform
  | sample (k : Nat)
  | shuffle
  | gauss
  | triangular
deriving DecidableEq, Repr

/-- Abstract model of `random.Random`: `init` is `random.Random(seed)`'s
initial internal state, `step` is how a given method call advances it. -/
structure RngModel where
  init : Int → Nat
  step : DrawOp → Nat → Nat

/-- `SeededRandom` from `core/random.py`: a stored `seed` plus the wrapped
`random.Random` internal state `_rng`. -/
structure SeededRandom where
  seed : Int
  rngState : Nat
deriving DecidableEq, Repr

/-- `SeededRandom.__init__`: stores the seed and seeds `random.Random`. -/
def SeededRandom.mk' (m : RngModel) (seed : Int) : SeededRandom :=
  { seed := seed, rngState := m.init seed }

/-- Executing one primitive draw method: only `self._rng` is touched
(every method body in `core/random.py` is a single call on `self._rng`). -/
def SeededRandom.applyDraw (m : RngModel) (sr : SeededRandom) (op : DrawOp) :
    SeededRandom :=
  { sr with rngState := m.step op sr.rngState }

/-- A sequence of draws taken from the generator, in order. -/
def SeededRandom.applyDraws (m : RngModel) (sr : SeededRandom) :
    List DrawOp → SeededRandom
  | [] => sr
  | op :: ops => SeededRandom.applyDraws m (sr.applyDraw m op) ops

/-- `hash((self.seed, namespace)) & 0xFFFFFFFF`.  Python's `&` on a
possibly negative `int` yields the nonnegative residue mod `2^32`. -/
def maskHash32 (h : Int) : Int := h.emod 4294967296

/-- `SeededRandom.fork`: the child seed is derived from the parent *seed*
and the namespace string only (`hash((self.seed, namespace)) & 0xFFFFFFFF`);
the tuple hash itself is an abstract parameter `hash2`. -/
def SeededRandom.fork (hash2 : Int → String → Int) (m : RngModel)
    (sr : SeededRandom) (namespace_ : String) : SeededRandom :=
  let childSeed := maskHash32 (hash2 sr.seed namespace_)
  SeededRandom.mk' m childSeed

theorem applyDraws_seed (m : RngModel) (sr : SeededRandom) (ops : List DrawOp) :
    (sr.applyDraws m ops).seed = sr.seed := by
  induction ops generalizing sr with
  | nil => rfl
  | cons op ops ih =>
      rw [SeededRandom.applyDraws, ih]
      rfl

/-- C4: Forking with namespace `B` yields the same child generator (hence
the same subsequent value sequence) no matter how many draws were taken
from the parent beforehand — the child depends only on the parent's seed
and the namespace string.  Draws taken from a child forked under another
namespace `A` are draws on a *different* `SeededRandom` value and do not
enter the parent's state at all. -/
theorem fork_namespace_isolation (hash2 : Int → String → Int) (m : RngModel)
    (sr : SeededRandom) (priorDraws : List DrawOp) (b : String) :
    (sr.applyDraws m priorDraws).fork hash2 m b = sr.fork hash2 m b := by
  simp [SeededRandom.fork, applyDraws_seed]

/-! ## `shop/options.py` — configuration enumerations -/

inductive TransactionGrain where
  | receipt_level | line_item_level | mixed
deriving DecidableEq, Repr

inductive TimestampBusinessDateRelation where
  | same | different
deriving DecidableEq, Repr

inductive ProductHierarchyChangeFrequency where
  | none | occasional | frequent
deriving DecidableEq, Repr

inductive CustomerIdReliability where
  | reliable | unreliable | absent
deriving DecidableEq, Repr

inductive PromotionsPerLineItem where
  | one | many
deriving DecidableEq, Repr

inductive ReturnsReferencePolicy where
  | always | sometimes | never
deriving DecidableEq, Repr

inductive ReturnsPricingPolicy where
  | original_price | current_price | arbitrary_override
deriving DecidableEq, Repr

inductive InventoryType where
  | transactional | periodic_snapshot | both
deriving DecidableEq, Repr

inductive Difficulty where
  | easy | medium | hard | adversarial
deriving DecidableEq, Repr

/-! ## `shop/config.py` — the Configuration Model and its invariants -/

structure TransactionConfig where
  grain : TransactionGrain
  multiple_payments : Bool
  voids_enabled : Bool
  manual_overrides : Bool
deriving DecidableEq, Repr

structure TimeConfig where
  timestamp_business_date_relation : TimestampBusinessDateRelation
  late_arriving_events : Bool
  backdated_corrections : Bool
deriving DecidableEq, Repr

structure ProductConfig where
  sku_reuse : Bool
  hierarchy_change_frequency : ProductHierarchyChangeFrequency
  bundled_products : Bool
  virtual_products : Bool
deriving DecidableEq, Repr

structure CustomerConfig where
  anonymous_allowed : Bool
  customer_id_reliability : CustomerIdReliability
  household_grouping : Bool
deriving DecidableEq, Repr

/-- `CustomerConfig.validate_household_grouping`: household grouping
requires a customer id to exist. -/
def CustomerConfig.validHouseholdGrouping (c : CustomerConfig) : Bool :=
  !(c.household_grouping &&
    c.customer_id_reliability = CustomerIdReliability.absent)

structure StoreConfig where
  physical_stores : Bool
  online_channel : Bool
  cross_store_returns : Bool
  store_lifecycle_changes : Bool
deriving DecidableEq, Repr

/-- `StoreConfig.validate_channels`: at least one channel must be enabled. -/
def StoreConfig.validChannels (s : StoreConfig) : Bool :=
  !(!s.physical_stores && !s.online_channel)

/-- `StoreConfig.validate_cross_store_returns`: cross-store returns
require physical stores. -/
def StoreConfig.validCrossStoreReturns (s : StoreConfig) : Bool :=
  !(s.cross_store_returns && !s.physical_stores)

structure PromotionConfig where
  promotions_per_line_item : PromotionsPerLineItem
  stackable_promotions : Bool
  basket_level_promotions : Bool
  post_transaction_promotions : Bool
deriving DecidableEq, Repr

/-- `PromotionConfig.validate_stackable`: stackable promotions require
multiple promotions per line item. -/
def PromotionConfig.validStackable (p : PromotionConfig) : Bool :=
  !(p.stackable_promotions &&
    p.promotions_per_line_item = PromotionsPerLineItem.one)

structure ReturnsConfig where
  reference_policy : ReturnsReferencePolicy
  pricing_policy : ReturnsPricingPolicy
deriving DecidableEq, Repr

structure InventoryConfig where
  tracked : Bool
  inventory_type : Option InventoryType
deriving DecidableEq, Repr

/-- `InventoryConfig.validate_inventory_type`: inventory type required iff
tracking is enabled. -/
def InventoryConfig.validInventoryType (i : InventoryConfig) : Bool :=
  (!(i.tracked && i.inventory_type.isNone)) &&
  (!(!i.tracked && i.inventory_type.isSome))

structure ShopConfiguration where
  seed : Int
  shop_name : String
  transactions : TransactionConfig
  time : TimeConfig
  products : ProductConfig
  customers : CustomerConfig
  stores : StoreConfig
  promotions : PromotionConfig
  returns : ReturnsConfig
  inventory : InventoryConfig
deriving DecidableEq, Repr

/-- All cross-field `model_validator` invariants of `shop/config.py`
together: a `ShopConfiguration` value can be constructed iff this holds. -/
def ShopConfiguration.valid (c : ShopConfiguration) : Bool :=
  c.customers.validHouseholdGrouping &&
  c.stores.validChannels &&
  c.stores.validCrossStoreReturns &&
  c.promotions.validStackable &&
  c.inventory.validInventoryType

/-! ## `shop/generator.py` — the Configuration Generator

Each `_generate_*` method forks a namespaced child generator and draws
enum/boolean values.  The draws themselves are abstracted into explicit
parameters: a weighted enum choice returns some key of the difficulty's
weight table (always the full set of enum members, so the parameter simply
has the enum type), and each `rng.boolean(...)` call is an arbitrary
`Bool`.  Every theorem below therefore quantifies over *all* possible draw
outcomes. -/

/-- Draw outcomes consumed by `ShopGenerator._generate_transactions`. -/
structure TransactionDraws where
  grainChoice : TransactionGrain
  multiplePaymentsCoin : Bool
  voidsCoin : Bool
  overridesCoin : Bool

def ShopGenerator.generateTransactions (d : TransactionDraws) :
    TransactionConfig :=
  { grain := d.grainChoice
    multiple_payments := d.multiplePaymentsCoin
    voids_enabled := d.voidsCoin
    manual_overrides := d.overridesCoin }

/-- Draw outcomes consumed by `ShopGenerator._generate_time`. -/
structure TimeDraws where
  relationChoice : TimestampBusinessDateRelation
  lateCoin : Bool
  backdatedCoin : Bool

def ShopGenerator.generateTime (d : TimeDraws) : TimeConfig :=
  { timestamp_business_date_relation := d.relationChoice
    late_arriving_events := d.lateCoin
    backdated_corrections := d.backdatedCoin }

/-- Draw outcomes consumed by `ShopGenerator._generate_products`. -/
structure ProductDraws where
  skuReuseCoin : Bool
  hierarchyChoice : ProductHierarchyChangeFrequency
  bundledCoin : Bool
  virtualCoin : Bool

def ShopGenerator.generateProducts (d : ProductDraws) : ProductConfig :=
  { sku_reuse := d.skuReuseCoin
    hierarchy_change_frequency := d.hierarchyChoice
    bundled_products := d.bundledCoin
    virtual_products := d.virtualCoin }

/-- Draw outcomes consumed by `ShopGenerator._generate_customers`. -/
structure CustomerDraws where
  reliabilityChoice : CustomerIdReliability
  householdCoin : Bool
  anonymousCoin : Bool

/-- `_generate_customers`: household grouping is only drawn as possibly
true when the customer id reliability is not `absent`. -/
def ShopGenerator.generateCustomers (d : CustomerDraws) : CustomerConfig :=
  let canHaveHouseholds := d.reliabilityChoice ≠ CustomerIdReliability.absent
  { anonymous_allowed := d.anonymousCoin
    customer_id_reliability := d.reliabilityChoice
    household_grouping := canHaveHouseholds && d.householdCoin }

/-- Draw outcomes consumed by `ShopGenerator._generate_stores`. -/
structure StoreDraws where
  physicalCoin : Bool
  onlineCoin : Bool
  forcePhysicalCoin : Bool
  crossStoreCoin : Bool
  lifecycleCoin : Bool

/-- `_generate_stores`: if both channel coins come up false, one channel is
forced on; cross-store returns are only drawn when physical stores exist. -/
def ShopGenerator.generateStores (d : StoreDraws) : StoreConfig :=
  let physical0 := d.physicalCoin
  let online0 := d.onlineCoin
  let physical :=
    if !physical0 && !online0 then
      (if d.forcePhysicalCoin then true else physical0)
    else physical0
  let online :=
    if !physical0 && !online0 then
      (if d.forcePhysicalCoin then online0 else true)
    else online0
  { physical_stores := physical
    online_channel := online
    cross_store_returns := physical && d.crossStoreCoin
    store_lifecycle_changes := d.lifecycleCoin }

/-- Draw outcomes consumed by `ShopGenerator._generate_promotions`. -/
structure PromotionDraws where
  perItemChoice : PromotionsPerLineItem
  stackableCoin : Bool
  basketCoin : Bool
  postCoin : Bool

/-- `_generate_promotions`: stackable is only drawn as possibly true when
multiple promotions per line item are allowed. -/
def ShopGenerator.generatePromotions (d : PromotionDraws) : PromotionConfig :=
  let canStack := d.perItemChoice = PromotionsPerLineItem.many
  { promotions_per_line_item := d.perItemChoice
    stackable_promotions := canStack && d.stackableCoin
    basket_level_promotions := d.basketCoin
    post_transaction_promotions := d.postCoin }

/-- Draw outcomes consumed by `ShopGenerator._generate_returns`. -/
structure ReturnsDraws where
  referenceChoice : ReturnsReferencePolicy
  pricingChoice : ReturnsPricingPolicy

def ShopGenerator.generateReturns (d : ReturnsDraws) : ReturnsConfig :=
  { reference_policy := d.referenceChoice
    pricing_policy := d.pricingChoice }

/-- Draw outcomes consumed by `ShopGenerator._generate_inventory`. -/
structure InventoryDraws where
  trackedCoin : Bool
  typeChoice : InventoryType

/-- `_generate_inventory`: the inventory type is drawn exactly when
tracking came up true, else left `None`. -/
def ShopGenerator.generateInventory (d : InventoryDraws) : InventoryConfig :=
  { tracked := d.trackedCoin
    inventory_type :=
      if d.trackedCoin then some d.typeChoice else none }

/-- All draw outcomes consumed by one `ShopGenerator.generate` run. -/
structure ShopDraws where
  shopName : String
  transactions : TransactionDraws
  time : TimeDraws
  products : ProductDraws
  customers : CustomerDraws
  stores : StoreDraws
  promotions : PromotionDraws
  returns : ReturnsDraws
  inventory : InventoryDraws

/-- `ShopGenerator.generate`: assembles the eight sub-configurations. -/
def ShopGenerator.generate (seed : Int) (d : ShopDraws) : ShopConfiguration :=
  { seed := seed
    shop_name := d.shopName
    transactions := ShopGenerator.generateTransactions d.transactions
    time := ShopGenerator.generateTime d.time
    products := ShopGenerator.generateProducts d.products
    customers := ShopGenerator.generateCustomers d.customers
    stores := ShopGenerator.generateStores d.stores
    promotions := ShopGenerator.generatePromotions d.promotions
    returns := ShopGenerator.generateReturns d.returns
    inventory := ShopGenerator.generateInventory d.inventory }

/-- C5: every configuration the generator can produce — for every seed and
every possible outcome of every draw (hence every difficulty tier) —
satisfies all cross-field invariants of `shop/config.py`, so construction
never raises a validation error. -/
theorem generate_config_valid (seed : Int) (d : ShopDraws) :
    (ShopGenerator.generate seed d).valid = true := by
  have hcust :
      (ShopGenerator.generateCustomers d.customers).validHouseholdGrouping
        = true := by
    rcases d.customers with ⟨r, hh, anon⟩
    cases r <;> simp [ShopGenerator.generateCustomers,
      CustomerConfig.validHouseholdGrouping]
  have hchan : (ShopGenerator.generateStores d.stores).validChannels = true := by
    rcases d.stores with ⟨p, o, f, cs, lc⟩
    cases p <;> cases o <;> cases f <;>
      simp [ShopGenerator.generateStores, StoreConfig.validChannels]
  have hcross :
      (ShopGenerator.generateStores d.stores).validCrossStoreReturns = true := by
    rcases d.stores with ⟨p, o, f, cs, lc⟩
    cases p <;> cases o <;> cases f <;> cases cs <;>
      simp [ShopGenerator.generateStores, StoreConfig.validCrossStoreReturns]
  have hstack :
      (ShopGenerator.generatePromotions d.promotions).validStackable = true := by
    rcases d.promotions with ⟨pi, st, ba, po⟩
    cases pi <;> simp [ShopGenerator.generatePromotions,
      PromotionConfig.validStackable]
  have hinv :
      (ShopGenerator.generateInventory d.inventory).validInventoryType
        = true := by
    rcases d.inventory with ⟨t, ty⟩
    cases t <;> simp [ShopGenerator.generateInventory,
      InventoryConfig.validInventoryType]
  simp only [ShopGenerator.generate, ShopConfiguration.valid]
  simp [hcust, hchan, hcross, hstack, hinv]

/-! ## `schema/models.py` — the Schema Submission model -/

inductive SCDType where
  | type_0 | type_1 | type_2 | type_3 | type_4 | type_6 | none
deriving DecidableEq, Repr

inductive AggregationType where
  | sum | count | min | max | avg | distinct_count
deriving DecidableEq, Repr

structure Measure where
  name : String
  data_type : String
  aggregation : AggregationType
  nullable : Bool := false
  description : Option String := Option.none
deriving DecidableEq, Repr

structure GrainColumn where
  name : String
  references_dimension : Option String := Option.none
  is_degenerate : Bool := false
deriving DecidableEq, Repr

structure FactTable where
  name : String
  grain_description : String
  grain_columns : List GrainColumn
  measures : List Measure
  dimension_keys : List String
deriving DecidableEq, Repr

structure DimensionAttribute where
  name : String
  data_type : String
  scd_tracked : Bool := false
deriving DecidableEq, Repr

structure DimensionTable where
  name : String
  natural_key : List String
  surrogate_key : String
  scd_strategy : SCDType
  attributes : List DimensionAttribute
  parent_dimension : Option String := Option.none
deriving DecidableEq, Repr

structure Relationship where
  fact_table : String
  dimension_table : String
  fact_column : String
  dimension_column : String
  cardinality : String := "many-to-one"
  is_role_playing : Bool := false
  role_name : Option String := Option.none
deriving DecidableEq, Repr

structure BridgeTable where
  name : String
  fact_table : String
  dimension_table : String
  group_key : String
  weighting_factor_column : Option String := Option.none
deriving DecidableEq, Repr

structure SchemaSubmission where
  fact_tables : List FactTable
  dimension_tables : List DimensionTable
  relationships : List Relationship
  bridge_tables : List BridgeTable := []
deriving DecidableEq, Repr

/-- `SchemaSubmission.get_fact_table`. -/
def SchemaSubmission.get_fact_table (s : SchemaSubmission) (name : String) :
    Option FactTable :=
  s.fact_tables.find? (fun ft => ft.name = name)

/-- `SchemaSubmission.get_dimension_table`. -/
def SchemaSubmission.get_dimension_table (s : SchemaSubmission)
    (name : String) : Option DimensionTable :=
  s.dimension_tables.find? (fun dt => dt.name = name)

/-- `SchemaSubmission.get_relationships_for_fact`. -/
def SchemaSubmission.get_relationships_for_fact (s : SchemaSubmission)
    (factName : String) : List Relationship :=
  s.relationships.filter (fun r => r.fact_table = factName)

/-- `SchemaSubmission.get_dimensions_for_fact`: only dimension tables that
actually exist in the submission are returned — a relationship naming a
missing dimension contributes nothing. -/
def SchemaSubmission.get_dimensions_for_fact (s : SchemaSubmission)
    (factName : String) : List DimensionTable :=
  let dimNames := (s.get_relationships_for_fact factName).map
    (fun r => r.dimension_table)
  s.dimension_tables.filter (fun dt => dimNames.contains dt.name)

/-! ## `schema/parser.py` — parse-time validation

Pydantic raises a `ValidationError` while constructing the model tree:
nested `FactTable`/`DimensionTable` field validators run first, then
`SchemaSubmission.validate_fact_tables`.  `parse_schema` surfaces this as
an `Except` over the structurally decoded document. -/

/-- `FactTable.validate_grain_columns`. -/
def FactTable.validateGrainColumns (ft : FactTable) : Except String FactTable :=
  if ft.grain_columns.isEmpty then
    .error "Fact table must have at least one grain column"
  else .ok ft

/-- `DimensionTable.validate_natural_key`. -/
def DimensionTable.validateNaturalKey (dt : DimensionTable) :
    Except String DimensionTable :=
  if dt.natural_key.isEmpty then
    .error "Dimension must have at least one natural key column"
  else .ok dt

/-- `SchemaSubmission.validate_fact_tables`. -/
def SchemaSubmission.validateFactTables (s : SchemaSubmission) :
    Except String SchemaSubmission :=
  if s.fact_tables.isEmpty then
    .error "Schema must have at least one fact table"
  else .ok s

/-- Pydantic validates each nested model of a list field in order and
aborts on the first failure. -/
def validateEach {α : Type} (f : α → Except String α) :
    List α → Except String (List α)
  | [] => .ok []
  | x :: xs =>
    match f x with
    | .error e => .error e
    | .ok v =>
      match validateEach f xs with
      | .error e => .error e
      | .ok vs => .ok (v :: vs)

/-- `parse_schema` (validation part of `SchemaSubmission.model_validate`):
runs every nested field validator, then the submission-level validator. -/
def parse_schema (s : SchemaSubmission) : Except String SchemaSubmission :=
  match validateEach FactTable.validateGrainColumns s.fact_tables with
  | .error e => .error e
  | .ok _ =>
    match validateEach DimensionTable.validateNaturalKey s.dimension_tables with
    | .error e => .error e
    | .ok _ => s.validateFactTables

theorem validateEach_error {α : Type} {f : α → Except String α} {l : List α}
    {x : α} (hmem : x ∈ l) {e : String} (hx : f x = .error e) :
    ∃ msg, validateEach f l = .error msg := by
  induction l with
  | nil => cases hmem
  | cons hd tl ih =>
      rcases List.mem_cons.1 hmem with h | h
      · subst h
        exact ⟨e, by simp [validateEach, hx]⟩
      · rcases ih h with ⟨msg, hmsg⟩
        cases hhd : f hd with
        | error e2 => exact ⟨e2, by simp [validateEach, hhd]⟩
        | ok v => exact ⟨msg, by simp [validateEach, hhd, hmsg]⟩

/-- C6: a submission with no fact tables, or with any fact table that has
an empty grain-column list, or any dimension with an empty natural-key
list, is rejected at parse time with an error — it never reaches axis
evaluation. -/
theorem parse_schema_rejects_structural_violations (s : SchemaSubmission)
    (h : s.fact_tables = [] ∨
      (∃ ft ∈ s.fact_tables, ft.grain_columns = []) ∨
      (∃ dt ∈ s.dimension_tables, dt.natural_key = [])) :
    ∃ msg, parse_schema s = .error msg := by
  rcases h with hempty | ⟨ft, hmem, hcols⟩ | ⟨dt, hmem, hkeys⟩
  · cases hdim : validateEach DimensionTable.validateNaturalKey
        s.dimension_tables with
    | error e =>
        refine ⟨e, ?_⟩
        unfold parse_schema
        rw [hempty, hdim]
        rfl
    | ok v =>
        refine ⟨"Schema must have at least one fact table", ?_⟩
        unfold parse_schema
        rw [hempty, hdim]
        simp [validateEach, SchemaSubmission.validateFactTables, hempty]
  · have hx : FactTable.validateGrainColumns ft =
        .error "Fact table must have at least one grain column" := by
      simp [FactTable.validateGrainColumns, hcols]
    rcases validateEach_error hmem hx with ⟨msg, hmsg⟩
    exact ⟨msg, by unfold parse_schema; rw [hmsg]⟩
  · have hx : DimensionTable.validateNaturalKey dt =
        .error "Dimension must have at least one natural key column" := by
      simp [DimensionTable.validateNaturalKey, hkeys]
    rcases validateEach_error hmem hx with ⟨msg, hmsg⟩
    cases hfact : validateEach FactTable.validateGrainColumns s.fact_tables with
    | error e => exact ⟨e, by unfold parse_schema; rw [hfact]⟩
    | ok v => exact ⟨msg, by unfold parse_schema; rw [hfact, hmsg]⟩

/-- Witness for C6 at the concrete empty submission `fact_tables = []`. -/
theorem parse_schema_rejects_structural_violations_witness :
    ∃ msg, parse_schema ⟨[], [], [], []⟩ = .error msg :=
  parse_schema_rejects_structural_violations ⟨[], [], [], []⟩ (Or.inl rfl)

/-! ## `events/models.py` — event records used by the state and emitters

Python `datetime` values are modelled as an `Int` minute clock
(`day * 1440 + minute-of-day`) and `date` values as `Int` day numbers, so
`timedelta(days = k)` on a date is `+ k` and comparisons agree with the
source's chronological order. -/

structure LineItem where
  line_number : Int
  sku : String
  quantity : Int
  unit_price_cents : Int
  discount_cents : Int := 0
  promotion_codes : List String := []
  bundle_parent_line : Option Int := Option.none
deriving DecidableEq, Repr

structure Payment where
  payment_method : String
  amount_cents : Int
  reference_number : Option String := Option.none
deriving DecidableEq, Repr

structure SaleEvent where
  event_id : String
  event_timestamp : Int
  business_effective_date : Int
  transaction_id : String
  store_id : String
  register_id : String
  employee_id : String
  line_items : List LineItem
  payments : List Payment
  customer_id : Option String := Option.none
  is_aggregated : Bool := false
deriving DecidableEq, Repr

structure CorrectionEvent where
  event_id : String
  event_timestamp : Int
  business_effective_date : Int
  correction_id : String
  original_event_id : String
  field_corrections : List (String × String)
  correction_reason : String
deriving DecidableEq, Repr

/-! ## `events/state.py` — World State -/

structure ProductState where
  sku : String
  name : String
  category_hierarchy : List String
  current_price_cents : Int
  is_active : Bool := true
  is_virtual : Bool := false
  bundle_components : Option (List String) := Option.none
deriving DecidableEq, Repr

structure StoreState where
  store_id : String
  store_name : String
  channel : String
  is_open : Bool := true
  open_date : Option Int := Option.none
  close_date : Option Int := Option.none
  registers : List String := []
  employees : List String := []
deriving DecidableEq, Repr

structure CustomerState where
  customer_id : String
  household_id : Option String := Option.none
  is_anonymous : Bool := false
deriving DecidableEq, Repr

structure PromotionState where
  promotion_code : String
  promotion_name : String
  discount_type : String
  discount_value : Int
  applicable_skus : Option (List String) := Option.none
  start_date : Option Int := Option.none
  end_date : Option Int := Option.none
  is_basket_level : Bool := false
  is_stackable : Bool := false
deriving DecidableEq, Repr

/-- Python `dict` lookup, over an insertion-ordered association list. -/
def alGet {β : Type} (l : List (String × β)) (k : String) : Option β :=
  (l.find? (fun p => p.1 = k)).map (·.2)

/-- Python `dict` assignment `d[k] = v`: overwrite in place, else append. -/
def alSet {β : Type} (l : List (String × β)) (k : String) (v : β) :
    List (String × β) :=
  if l.any (fun p => p.1 = k) then
    l.map (fun p => if p.1 = k then (k, v) else p)
  else l ++ [(k, v)]

/-- `WorldState`: the mutable simulation state of one run. -/
structure WorldState where
  config : ShopConfiguration
  current_timestamp : Int := 1440 * 0 + 540
  current_business_date : Int := 0
  products : List (String × ProductState) := []
  stores : List (String × StoreState) := []
  customers : List (String × CustomerState) := []
  promotions : List (String × PromotionState) := []
  inventory : List (String × List (String × Int)) := []
  transaction_history : List (String × SaleEvent) := []
  voided_events : List String := []
  event_sequence : Int := 0
  transaction_sequence : Int := 0
deriving Repr

/-- Python's `f"{n:08d}"` for nonnegative `n`. -/
def pad8 (n : Int) : String :=
  let s := toString n.natAbs
  String.mk (List.replicate (8 - s.length) '0') ++ s

/-- `WorldState.generate_event_id`: bumps the sequence and formats it. -/
def WorldState.generate_event_id (s : WorldState) : String × WorldState :=
  let seq := s.event_sequence + 1
  ("EVT-" ++ pad8 seq, { s with event_sequence := seq })

/-- `WorldState.advance_time`. -/
def WorldState.advance_time (s : WorldState) (minutes : Int) : WorldState :=
  { s with current_timestamp := s.current_timestamp + minutes }

/-- `WorldState.advance_business_date`: next day, reset to 09:00. -/
def WorldState.advance_business_date (s : WorldState) : WorldState :=
  let d := s.current_business_date + 1
  { s with current_business_date := d, current_timestamp := d * 1440 + 540 }

/-- `WorldState.update_inventory`: a no-op unless inventory is tracked;
otherwise inserts the store / sku levels (default starting quantity 100)
and adds `quantity_change`. -/
def WorldState.update_inventory (s : WorldState) (store_id sku : String)
    (quantity_change : Int) : WorldState :=
  if !s.config.inventory.tracked then s
  else
    let storeInv := (alGet s.inventory store_id).getD []
    let storeInv :=
      if (alGet storeInv sku).isNone then alSet storeInv sku 100 else storeInv
    let cur := (alGet storeInv sku).getD 0
    { s with inventory :=
        alSet s.inventory store_id (alSet storeInv sku (cur + quantity_change)) }

/-- `initialize_world_state`: master data is generated from forked
namespaces (abstracted here into the supplied lists and the per-cell
quantity oracle `invQty` for `rng.integer(50, 200)`); the inventory map is
populated only when `config.inventory.tracked`. -/
def initialize_world_state (config : ShopConfiguration)
    (products : List (String × ProductState))
    (stores : List (String × StoreState))
    (promotions : List (String × PromotionState))
    (invQty : String → String → Int) : WorldState :=
  { config := config
    products := products
    stores := stores
    customers := []
    promotions := promotions
    inventory :=
      if config.inventory.tracked then
        stores.map (fun st =>
          (st.1, products.map (fun p => (p.1, invQty st.1 p.1))))
      else []
    transaction_history := []
    voided_events := []
    event_sequence := 0
    transaction_sequence := 0 }

/-- The mutations a simulation run performs on `WorldState` (every state
write in `events/state.py` and the emitters goes through one of these;
in particular, every inventory write is an `updateInventory`). -/
inductive StateOp where
  | updateInventory (store_id sku : String) (qty : Int)
  | advanceTime (minutes : Int)
  | advanceBusinessDate
  | bumpEventSequence
  | recordTransaction (txnId : String) (ev : SaleEvent)
  | markVoided (txnId : String)
  | addCustomer (id : String) (c : CustomerState)
deriving Repr

def WorldState.applyOp (s : WorldState) : StateOp → WorldState
  | .updateInventory store sku q => s.update_inventory store sku q
  | .advanceTime m => s.advance_time m
  | .advanceBusinessDate => s.advance_business_date
  | .bumpEventSequence => (s.generate_event_id).2
  | .recordTransaction txnId ev =>
      { s with transaction_history := alSet s.transaction_history txnId ev }
  | .markVoided txnId => { s with voided_events := s.voided_events ++ [txnId] }
  | .addCustomer id c => { s with customers := alSet s.customers id c }

def WorldState.applyOps (s : WorldState) (ops : List StateOp) : WorldState :=
  ops.foldl WorldState.applyOp s

theorem applyOp_inventory_frame (s : WorldState)
    (h : s.config.inventory.tracked = false) (op : StateOp) :
    (s.applyOp op).inventory = s.inventory ∧
      (s.applyOp op).config = s.config := by
  cases op <;> simp [WorldState.applyOp, WorldState.update_inventory, h,
    WorldState.advance_time, WorldState.advance_business_date,
    WorldState.generate_event_id]

/-- C10: with `inventory.tracked = false`, `initialize_world_state` leaves
the inventory map empty and every `update_inventory` call returns without
touching it, so for any sequence of state operations performed by a run
the inventory map is empty from start to end. -/
theorem inventory_never_written_when_untracked (config : ShopConfiguration)
    (products : List (String × ProductState))
    (stores : List (String × StoreState))
    (promotions : List (String × PromotionState))
    (invQty : String → String → Int) (ops : List StateOp)
    (h : config.inventory.tracked = false) :
    ((initialize_world_state config products stores promotions
        invQty).applyOps ops).inventory = [] := by
  have hinit : (initialize_world_state config products stores promotions
      invQty).inventory = [] := by
    simp [initialize_world_state, h]
  have hcfg : (initialize_world_state config products stores promotions
      invQty).config = config := rfl
  generalize hs : initialize_world_state config products stores promotions
      invQty = s0 at hinit hcfg
  clear hs
  induction ops generalizing s0 with
  | nil => simpa [WorldState.applyOps] using hinit
  | cons op ops ih =>
      have hframe := applyOp_inventory_frame s0 (by rw [hcfg]; exact h) op
      have := ih (s0.applyOp op) (hframe.1.trans hinit)
        (hframe.2.trans hcfg)
      simpa [WorldState.applyOps] using this

/-- Witness for C10: a concrete untracked configuration, one store and
product, and a run that tries two inventory updates. -/
def witnessConfig10 : ShopConfiguration :=
  { seed := 42
    shop_name := "Quick Mart"
    transactions := ⟨TransactionGrain.line_item_level, false, false, false⟩
    time := ⟨TimestampBusinessDateRelation.same, false, false⟩
    products := ⟨false, ProductHierarchyChangeFrequency.none, false, false⟩
    customers := ⟨false, CustomerIdReliability.reliable, false⟩
    stores := ⟨true, false, false, false⟩
    promotions := ⟨PromotionsPerLineItem.one, false, false, false⟩
    returns := ⟨ReturnsReferencePolicy.never, ReturnsPricingPolicy.original_price⟩
    inventory := ⟨false, Option.none⟩ }

theorem inventory_never_written_when_untracked_witness :
    ((initialize_world_state witnessConfig10
        [("SKU-00001", ⟨"SKU-00001", "Product 1", ["Grocery", "Dairy"],
          500, true, false, Option.none⟩)]
        [("STORE-001", ⟨"STORE-001", "Store #1", "physical", true,
          some 0, Option.none, ["REG-1"], ["EMP-1"]⟩)]
        [] (fun _ _ => 100)).applyOps
      [StateOp.updateInventory "STORE-001" "SKU-00001" (-3),
       StateOp.advanceTime 15,
       StateOp.updateInventory "STORE-001" "SKU-00001" 7]).inventory = [] :=
  inventory_never_written_when_untracked _ _ _ _ _ _ rfl

/-! ## `events/emitters/voids.py` — `CorrectionEventEmitter`

The correction emitter selects a non-voided prior transaction, attaches
field-level corrections, and emits an event whose `event_timestamp` is
the current simulation time while its `business_effective_date` is the
original sale's business date, optionally shifted forward by
`rng.integer(0, 3)` days. -/

def CORRECTION_REASONS : List String :=
  ["price_correction", "quantity_correction", "customer_id_correction",
   "promotion_applied_late", "tax_adjustment", "data_entry_error"]

/-- `rng.choice` on a list: some element of it (an arbitrary in-range
index supplied by the draw oracle). -/
def rngChoice {α : Type} (l : List α) (idx : Nat) (default_ : α) : α :=
  l.getD (idx % l.length) default_

/-- Draw outcomes consumed by one `CorrectionEventEmitter.emit` call.
`_generate_corrections` performs only field-content draws (no dates), so
its outcome is abstracted into the supplied `corrections` list. -/
structure CorrectionDraws where
  pickIdx : Nat
  corrections : List (String × String)
  shiftCoin : Bool
  shiftDays : Fin 4
  reasonIdx : Nat

/-- `CorrectionEventEmitter.should_emit`. -/
def CorrectionEventEmitter.should_emit (state : WorldState)
    (rareCoin : Bool) : Bool :=
  if !state.config.time.backdated_corrections then false
  else if state.transaction_history.isEmpty then false
  else rareCoin

/-- `CorrectionEventEmitter.emit`. -/
def CorrectionEventEmitter.emit (state : WorldState) (d : CorrectionDraws) :
    List CorrectionEvent × WorldState :=
  let correctable := (state.transaction_history.filter
      (fun p => !(state.voided_events.contains p.1))).map (fun p => p.1)
  if correctable.isEmpty then ([], state)
  else
    let txn_id := rngChoice correctable d.pickIdx ""
    match alGet state.transaction_history txn_id with
    | Option.none => ([], state)
    | some original =>
      let backdated_date0 := original.business_effective_date
      let backdated_date :=
        if d.shiftCoin then backdated_date0 + (d.shiftDays : Int)
        else backdated_date0
      let (event_id, state) := state.generate_event_id
      let ev : CorrectionEvent :=
        { event_id := event_id
          event_timestamp := state.current_timestamp
          business_effective_date := backdated_date
          correction_id := "CORR-" ++ pad8 state.event_sequence
          original_event_id := original.event_id
          field_corrections := d.corrections
          correction_reason := rngChoice CORRECTION_REASONS d.reasonIdx "" }
      ([ev], state)

/-- C8: every correction event ever emitted carries the simulation's
current time as its `event_timestamp`, while its
`business_effective_date` equals the referenced original sale's business
date shifted forward by at most 3 days (`rng.integer(0, 3)`, and only
when the 30% backdate-shift coin fires). -/
theorem correction_event_dual_dates (state : WorldState)
    (d : CorrectionDraws) (e : CorrectionEvent)
    (hmem : e ∈ (CorrectionEventEmitter.emit state d).1) :
    e.event_timestamp = state.current_timestamp ∧
    ∃ txnId original,
      alGet state.transaction_history txnId = some original ∧
      e.original_event_id = original.event_id ∧
      original.business_effective_date ≤ e.business_effective_date ∧
      e.business_effective_date ≤ original.business_effective_date + 3 := by
  unfold CorrectionEventEmitter.emit at hmem
  set correctable := (state.transaction_history.filter
      (fun p => !(state.voided_events.contains p.1))).map (fun p => p.1)
    with hc
  by_cases hempty : correctable.isEmpty
  · rw [if_pos hempty] at hmem
    cases hmem
  · rw [if_neg hempty] at hmem
    set txn_id := rngChoice correctable d.pickIdx "" with htxn
    cases horig : alGet state.transaction_history txn_id with
    | none => simp only [horig] at hmem; cases hmem
    | some original =>
        simp only [horig] at hmem
        simp only [WorldState.generate_event_id, List.mem_singleton] at hmem
        subst hmem
        refine ⟨rfl, txn_id, original, horig, rfl, ?_, ?_⟩
        · have hlt := d.shiftDays.isLt
          by_cases hcoin : d.shiftCoin <;>
            simp only [hcoin, if_true, if_false] <;> omega
        · have hlt := d.shiftDays.isLt
          by_cases hcoin : d.shiftCoin <;>
            simp only [hcoin, if_true, if_false] <;> omega

/-- Witness for C8 at a concrete state holding one prior sale. -/
def witnessSale8 : SaleEvent :=
  { event_id := "EVT-00000001"
    event_timestamp := 540
    business_effective_date := 0
    transaction_id := "TXN-00000001"
    store_id := "STORE-001"
    register_id := "REG-1"
    employee_id := "EMP-1"
    line_items := [⟨1, "SKU-00001", 2, 500, 0, [], Option.none⟩]
    payments := [⟨"cash", 1000, Option.none⟩] }

def witnessState8 : WorldState :=
  { config := { witnessConfig10 with
      time := ⟨TimestampBusinessDateRelation.same, false, true⟩ }
    current_timestamp := 3 * 1440 + 600
    current_business_date := 3
    transaction_history := [("TXN-00000001", witnessSale8)]
    event_sequence := 1 }

theorem correction_event_dual_dates_witness :
    let e := { event_id := "EVT-00000002"
               event_timestamp := 3 * 1440 + 600
               business_effective_date := 2
               correction_id := "CORR-00000002"
               original_event_id := "EVT-00000001"
               field_corrections := [("customer_id", "CUST-000002")]
               correction_reason := "customer_id_correction" : CorrectionEvent }
    e.event_timestamp = witnessState8.current_timestamp ∧
    ∃ txnId original,
      alGet witnessState8.transaction_history txnId = some original ∧
      e.original_event_id = original.event_id ∧
      original.business_effective_date ≤ e.business_effective_date ∧
      e.business_effective_date ≤ original.business_effective_date + 3 :=
  correction_event_dual_dates witnessState8
    ⟨0, [("customer_id", "CUST-000002")], true, ⟨2, by decide⟩, 2⟩ _
    (by decide)

/-! ## `events/generator.py` — the Scenario Simulation Engine

`EventGenerator.generate` loops over business days (`_simulate_day` plus
the optional `_maybe_emit_product_changes`), stopping once the target
event count is reached or the day budget is exhausted, then sorts the
accumulated events by timestamp and truncates to the requested count.
The per-day emitter orchestration only produces *some* event list and a
new state, so it is abstracted into the supplied `simDay` / `maybeProd`
transition functions; the sortedness / truncation contract holds for
every such behaviour. -/

/-- Common header carried by every event variant (`BaseEvent`). -/
structure BaseEventH where
  event_id : String
  event_type : String
  event_timestamp : Int
  business_effective_date : Int
deriving DecidableEq, Repr

/-- `EventLog` from `events/models.py`. -/
structure EventLog where
  shop_config_seed : Int
  events : List BaseEventH
deriving DecidableEq, Repr

/-- The `while len(events) < num_events and days_simulated < simulation_days`
loop of `EventGenerator.generate`; the remaining day budget is the fuel. -/
def EventGenerator.generateLoop
    (simDay maybeProd : WorldState → List BaseEventH × WorldState)
    (prodEnabled : Bool) (num_events : Nat) :
    Nat → List BaseEventH → WorldState → List BaseEventH × WorldState
  | 0, events, st => (events, st)
  | fuel + 1, events, st =>
      if events.length < num_events then
        let day := simDay st
        let events1 := events ++ day.1
        let prod := if prodEnabled then maybeProd day.2 else ([], day.2)
        EventGenerator.generateLoop simDay maybeProd prodEnabled num_events
          fuel (events1 ++ prod.1) prod.2
      else (events, st)

/-- The sort key `lambda e: e.event_timestamp`, as a Boolean order. -/
def tsLe (a b : BaseEventH) : Bool := a.event_timestamp ≤ b.event_timestamp

/-- `events.sort(key=lambda e: e.event_timestamp)` followed by
`if len(events) > num_events: events = events[:num_events]`. -/
def sortAndTrim (events : List BaseEventH) (num_events : Nat) :
    List BaseEventH :=
  let sorted := events.mergeSort tsLe
  if sorted.length > num_events then sorted.take num_events else sorted

/-- `EventGenerator.generate(num_events, simulation_days)`. -/
def EventGenerator.generate (config : ShopConfiguration)
    (simDay maybeProd : WorldState → List BaseEventH × WorldState)
    (st : WorldState) (num_events simulation_days : Nat) : EventLog :=
  let prodEnabled := config.products.hierarchy_change_frequency
      ≠ ProductHierarchyChangeFrequency.none
  let events := (EventGenerator.generateLoop simDay maybeProd prodEnabled
      num_events simulation_days [] st).1
  { shop_config_seed := config.seed, events := sortAndTrim events num_events }

theorem sortAndTrim_spec (events : List BaseEventH) (num_events : Nat) :
    (sortAndTrim events num_events).length ≤ num_events ∧
    (sortAndTrim events num_events).Pairwise
      (fun a b => a.event_timestamp ≤ b.event_timestamp) := by
  have hsorted : (events.mergeSort tsLe).Pairwise
      (fun a b => tsLe a b = true) := by
    apply List.sorted_mergeSort
    · intro a b c hab hbc
      simp only [tsLe, decide_eq_true_eq] at *
      omega
    · intro a b
      simp only [tsLe, Bool.or_eq_true, decide_eq_true_eq]
      omega
  have hsorted' : (events.mergeSort tsLe).Pairwise
      (fun a b => a.event_timestamp ≤ b.event_timestamp) :=
    hsorted.imp (fun h => by simpa [tsLe, decide_eq_true_eq] using h)
  unfold sortAndTrim
  by_cases hlen : (events.mergeSort tsLe).length > num_events
  · simp only [hlen, if_true]
    exact ⟨by simp, List.Pairwise.sublist (List.take_sublist _ _) hsorted'⟩
  · simp only [hlen, if_false]
    exact ⟨by omega, hsorted'⟩

/-- C3: for every configuration, target count, day budget and per-day
emitter behaviour, `generate` returns at most `num_events` events, sorted
non-decreasing by event timestamp. -/
theorem generate_truncated_and_sorted (config : ShopConfiguration)
    (simDay maybeProd : WorldState → List BaseEventH × WorldState)
    (st : WorldState) (num_events simulation_days : Nat) :
    (EventGenerator.generate config simDay maybeProd st num_events
        simulation_days).events.length ≤ num_events ∧
    (EventGenerator.generate config simDay maybeProd st num_events
        simulation_days).events.Pairwise
      (fun a b => a.event_timestamp ≤ b.event_timestamp) := by
  unfold EventGenerator.generate
  exact sortAndTrim_spec _ num_events

/-! ## `evaluator/result.py` and `evaluator/feedback.py` — result model

`evaluator/result.py` declares `Deduction` as a dataclass with exactly
four fields (`points`, `reason`, `severity`, `affected_elements`), yet
every axis constructs deductions that additionally pass the structured
explanation keywords `violation_type` / `concrete_example` /
`consequence` / `fix_hint`, and `evaluator/feedback.py` reads those
attributes back.  The `Deduction` structure below carries the full
argument list of the construction sites (extended fields `none` when not
passed); `mkResultDeduction` models the actual Python dataclass
constructor of `result.py`, which raises `TypeError` whenever an extended
keyword is passed. -/

inductive Severity where
  | minor | moderate | major | critical
deriving DecidableEq, Repr

def Severity.value : Severity → String
  | .minor => "minor"
  | .moderate => "moderate"
  | .major => "major"
  | .critical => "critical"

inductive ViolationType where
  | grain_violation | temporal_lie | semantic_mismatch | over_modeling
  | under_modeling | data_loss | fan_out_risk
deriving DecidableEq, Repr

inductive EventType where
  | sale | return_ | void_ | correction | inventory_adjustment
  | inventory_snapshot | product_change | store_change
deriving DecidableEq, Repr

def EventType.value : EventType → String
  | .sale => "sale"
  | .return_ => "return"
  | .void_ => "void"
  | .correction => "correction"
  | .inventory_adjustment => "inventory_adjustment"
  | .inventory_snapshot => "inventory_snapshot"
  | .product_change => "product_change"
  | .store_change => "store_change"

structure Deduction where
  points : Int
  reason : String
  severity : Severity
  affected_elements : List String := []
  violation_type : Option ViolationType := Option.none
  concrete_example : Option String := Option.none
  consequence : Option String := Option.none
  fix_hint : Option String := Option.none
deriving DecidableEq, Repr

/-- True iff the construction site passed any keyword that
`result.py`'s `Deduction` dataclass does not declare. -/
def Deduction.usesExtendedKwargs (d : Deduction) : Bool :=
  d.violation_type.isSome || d.concrete_example.isSome ||
  d.consequence.isSome || d.fix_hint.isSome

/-- The `Deduction(...)` dataclass call of `result.py`: raises
`TypeError` on any of the undeclared extended keywords. -/
def mkResultDeduction (d : Deduction) : Except String Deduction :=
  if d.usesExtendedKwargs then
    .error "TypeError: Deduction.__init__() got an unexpected keyword argument"
  else .ok d

structure AxisScore where
  axis_name : String
  score : Int
  max_score : Int
  deductions : List Deduction := []
  commentary : String := ""
deriving DecidableEq, Repr

/-- Scoring fields of `EvaluationResult` (the `critique` and
`recommendations` presentation strings involve float percentage
formatting and are outside this embedding; they cannot raise for a
six-axis result since `sum(max_score) = 600 > 0`). -/
structure EvaluationResult where
  total_score : Int
  max_possible_score : Int
  axis_scores : List AxisScore
deriving DecidableEq, Repr

def sumPoints (l : List Deduction) : Int := (l.map (fun d => d.points)).sum

/-- `EvaluationAxis._generate_commentary`. -/
def generateCommentary (deductions : List Deduction) : String :=
  if deductions.isEmpty then "No issues found."
  else
    let critical := deductions.filter (fun d => d.severity.value = "critical")
    let major := deductions.filter (fun d => d.severity.value = "major")
    let nc := toString critical.length
    let nm := toString major.length
    let nt := toString deductions.length
    if !critical.isEmpty then
      "Critical issues found: " ++ nc ++ " critical, " ++ nm ++
        " major problems."
    else if !major.isEmpty then
      "Significant issues found: " ++ nm ++ " major problems."
    else
      "Minor issues found: " ++ nt ++ " total."

/-! ## `evaluator/axes/base.py` — Evaluation Context -/

structure EvaluationContext where
  config : ShopConfiguration
  events : EventLog
deriving Repr

/-- `EvaluationContext._compute_required_event_types` (a Python `set`;
modelled as the list of inserted members in insertion order). -/
def EvaluationContext.required_event_types (ctx : EvaluationContext) :
    List EventType :=
  [EventType.sale]
  ++ (if ctx.config.returns.reference_policy ≠ ReturnsReferencePolicy.never
      then [EventType.return_] else [])
  ++ (if ctx.config.transactions.voids_enabled
      then [EventType.void_] else [])
  ++ (if ctx.config.time.backdated_corrections
      then [EventType.correction] else [])
  ++ (if ctx.config.inventory.tracked &&
        (ctx.config.inventory.inventory_type = some InventoryType.transactional
         || ctx.config.inventory.inventory_type = some InventoryType.both)
      then [EventType.inventory_adjustment] else [])
  ++ (if ctx.config.inventory.tracked &&
        (ctx.config.inventory.inventory_type
            = some InventoryType.periodic_snapshot
         || ctx.config.inventory.inventory_type = some InventoryType.both)
      then [EventType.inventory_snapshot] else [])
  ++ (if ctx.config.products.hierarchy_change_frequency
        ≠ ProductHierarchyChangeFrequency.none
      then [EventType.product_change] else [])
  ++ (if ctx.config.stores.store_lifecycle_changes
      then [EventType.store_change] else [])

/-- `EvaluationContext._compute_scd_requirements`. -/
def EvaluationContext.dimensions_requiring_scd (ctx : EvaluationContext) :
    List String :=
  (if ctx.config.products.hierarchy_change_frequency
      ≠ ProductHierarchyChangeFrequency.none then ["product"] else [])
  ++ (if ctx.config.stores.store_lifecycle_changes then ["store"] else [])
  ++ (if ctx.config.customers.household_grouping then ["customer"] else [])

/-- `EvaluationContext.requires_scd`: substring match against the
lower-cased dimension name. -/
def EvaluationContext.requires_scd (ctx : EvaluationContext)
    (dimension_name : String) : Bool :=
  ctx.dimensions_requiring_scd.any
    (fun dim => strContains (strToLower dimension_name) dim)

/-- Python truthiness of an `Optional[str]` (`None` and `""` are falsy). -/
def pyTruthyOpt (o : Option String) : Bool :=
  match o with
  | Option.none => false
  | some s => !(strIsEmpty s)

/-! ## `evaluator/axes/grain_correctness.py` -/

/-- `_check_grain_declaration`. -/
def GrainCorrectnessAxis.checkGrainDeclaration (fact : FactTable) :
    List Deduction :=
  if strIsEmpty fact.grain_description
      || (strTrim fact.grain_description).length < 10 then
    [{ points := 10
       reason := "Fact table \x27" ++ fact.name ++
         "\x27 has no or insufficient grain description"
       severity := Severity.moderate
       affected_elements := [fact.name]
       violation_type := some ViolationType.grain_violation
       concrete_example := some
         "Without a grain statement, it\x27s unclear what one row represents"
       consequence := some
         "Queries may aggregate incorrectly; team members will misuse the table"
       fix_hint := some
         "Add a clear grain_description stating exactly what one row represents" }]
  else []

/-- `_check_grain_columns`. -/
def GrainCorrectnessAxis.checkGrainColumns (fact : FactTable) :
    List Deduction :=
  fact.grain_columns.flatMap (fun gc =>
    if pyTruthyOpt gc.references_dimension then
      if !(fact.dimension_keys.contains (gc.references_dimension.getD "")) then
        [{ points := 10
           reason := "Grain column \x27" ++ gc.name ++ "\x27 references \x27"
             ++ gc.references_dimension.getD ""
             ++ "\x27 which is not in dimension_keys"
           severity := Severity.moderate
           affected_elements := [fact.name, gc.name] }]
      else []
    else if !gc.is_degenerate then
      [{ points := 5
         reason := "Grain column \x27" ++ gc.name ++
           "\x27 should reference a dimension or be marked as degenerate"
         severity := Severity.minor
         affected_elements := [fact.name, gc.name] }]
    else [])

/-- `_check_fan_out_risk`: relationships naming missing tables are
handled by name only — a dangling reference at most yields a deduction. -/
def GrainCorrectnessAxis.checkFanOutRisk (fact : FactTable)
    (submission : SchemaSubmission) : List Deduction :=
  (submission.get_relationships_for_fact fact.name).flatMap (fun rel =>
    if rel.cardinality = "many-to-many" then
      if !(submission.bridge_tables.any (fun bt =>
          bt.fact_table = fact.name
          && bt.dimension_table = rel.dimension_table)) then
        [{ points := 20
           reason := "Many-to-many relationship between \x27" ++ fact.name ++
             "\x27 and \x27" ++ rel.dimension_table ++ "\x27 without bridge table"
           severity := Severity.major
           affected_elements := [fact.name, rel.dimension_table]
           violation_type := some ViolationType.fan_out_risk
           concrete_example := some ("One " ++ fact.name ++
             " row joins to multiple " ++ rel.dimension_table ++
             " rows, duplicating measures")
           consequence := some
             "SUM/COUNT queries inflate by the fan-out factor; all aggregations are wrong"
           fix_hint := some ("Add a bridge table between " ++ fact.name ++
             " and " ++ rel.dimension_table) }]
      else []
    else [])

def mixed_indicators : List String :=
  ["or", "sometimes", "depending", "either", "mixed"]

def grain_patterns : List String :=
  ["transaction", "line item", "order", "event", "snapshot"]

/-- `_check_mixed_grain`: the indicator loop breaks on the first match. -/
def GrainCorrectnessAxis.checkMixedGrain (fact : FactTable) :
    List Deduction :=
  let grain_desc := (strToLower fact.grain_description)
  let first :=
    match mixed_indicators.find? (fun ind => strContains grain_desc ind) with
    | some indicator =>
        [{ points := 25
           reason := "Fact \x27" ++ fact.name ++
             "\x27 grain description suggests mixed grain (contains \x27" ++
             indicator ++ "\x27)"
           severity := Severity.critical
           affected_elements := [fact.name]
           violation_type := some ViolationType.grain_violation
           concrete_example := some
             "TXN-001 has 3 line items; TXN-002 is receipt-level only - both in same table"
           consequence := some
             "SUM(quantity) double-counts or loses items; no reliable aggregation possible"
           fix_hint := some
             "Split into separate fact tables per grain, or add is_aggregated indicator column" }]
    | Option.none => []
  let found_patterns := grain_patterns.filter
    (fun p => strContains grain_desc p)
  let second :=
    if found_patterns.length > 1 then
      [{ points := 15
         reason := "Fact \x27" ++ fact.name ++
           "\x27 grain mentions multiple concepts: " ++ pyListRepr found_patterns
         severity := Severity.major
         affected_elements := [fact.name] }]
    else []
  first ++ second

/-- All deductions collected by `GrainCorrectnessAxis.evaluate`. -/
def GrainCorrectnessAxis.deductions (submission : SchemaSubmission) :
    List Deduction :=
  submission.fact_tables.flatMap (fun fact =>
    GrainCorrectnessAxis.checkGrainDeclaration fact
    ++ GrainCorrectnessAxis.checkGrainColumns fact
    ++ GrainCorrectnessAxis.checkFanOutRisk fact submission
    ++ GrainCorrectnessAxis.checkMixedGrain fact)

/-- Shared shape of the five deducting axes' `evaluate`: construct each
`Deduction` through the `result.py` dataclass (which may raise), then
score `max(0, max_score - sum(points))`. -/
def runDeductionAxis (name : String) (deds : List Deduction) :
    Except String AxisScore :=
  match validateEach mkResultDeduction deds with
  | .error e => .error e
  | .ok _ =>
    .ok { axis_name := name
          score := max 0 (100 - sumPoints deds)
          max_score := 100
          deductions := deds
          commentary := generateCommentary deds }

/-- `GrainCorrectnessAxis.evaluate`. -/
def GrainCorrectnessAxis.evaluate (submission : SchemaSubmission) :
    Except String AxisScore :=
  runDeductionAxis "grain_correctness"
    (GrainCorrectnessAxis.deductions submission)

theorem checkGrainDeclaration_points_nonneg (fact : FactTable) :
    ∀ d ∈ GrainCorrectnessAxis.checkGrainDeclaration fact, 0 ≤ d.points := by
  intro d hd
  unfold GrainCorrectnessAxis.checkGrainDeclaration at hd
  split at hd
  · rcases List.mem_singleton.1 hd with rfl
    norm_num
  · cases hd

theorem checkGrainColumns_points_nonneg (fact : FactTable) :
    ∀ d ∈ GrainCorrectnessAxis.checkGrainColumns fact, 0 ≤ d.points := by
  intro d hd
  unfold GrainCorrectnessAxis.checkGrainColumns at hd
  rcases List.mem_flatMap.1 hd with ⟨gc, _, hmem⟩
  split at hmem
  · split at hmem
    · rcases List.mem_singleton.1 hmem with rfl; norm_num
    · cases hmem
  · split at hmem
    · rcases List.mem_singleton.1 hmem with rfl; norm_num
    · cases hmem

theorem checkFanOutRisk_points_nonneg (fact : FactTable)
    (submission : SchemaSubmission) :
    ∀ d ∈ GrainCorrectnessAxis.checkFanOutRisk fact submission,
      0 ≤ d.points := by
  intro d hd
  unfold GrainCorrectnessAxis.checkFanOutRisk at hd
  rcases List.mem_flatMap.1 hd with ⟨rel, _, hmem⟩
  split at hmem
  · split at hmem
    · rcases List.mem_singleton.1 hmem with rfl; norm_num
    · cases hmem
  · cases hmem

theorem checkMixedGrain_points_nonneg (fact : FactTable) :
    ∀ d ∈ GrainCorrectnessAxis.checkMixedGrain fact, 0 ≤ d.points := by
  intro d hd
  unfold GrainCorrectnessAxis.checkMixedGrain at hd
  rcases List.mem_append.1 hd with hmem | hmem
  · split at hmem
    · rcases List.mem_singleton.1 hmem with rfl; norm_num
    · cases hmem
  · split at hmem
    · rcases List.mem_singleton.1 hmem with rfl; norm_num
    · cases hmem

theorem grainDeductions_points_nonneg (submission : SchemaSubmission) :
    ∀ d ∈ GrainCorrectnessAxis.deductions submission, 0 ≤ d.points := by
  intro d hd
  unfold GrainCorrectnessAxis.deductions at hd
  rcases List.mem_flatMap.1 hd with ⟨fact, _, hmem⟩
  rcases List.mem_append.1 hmem with hmem | hmem
  rcases List.mem_append.1 hmem with hmem | hmem
  rcases List.mem_append.1 hmem with hmem | hmem
  · exact checkGrainDeclaration_points_nonneg fact d hmem
  · exact checkGrainColumns_points_nonneg fact d hmem
  · exact checkFanOutRisk_points_nonneg fact submission d hmem
  · exact checkMixedGrain_points_nonneg fact d hmem

/-! ## `evaluator/axes/event_preservation.py` -/

/-- The fact-table name lexicon per event type. -/
def event_type_patterns : EventType → List String
  | .sale => ["sale", "transaction", "order"]
  | .return_ => ["return", "refund"]
  | .void_ => ["void", "cancel", "transaction"]
  | .correction => ["correction", "adjustment", "transaction"]
  | .inventory_adjustment => ["inventory", "stock"]
  | .inventory_snapshot => ["inventory", "stock", "snapshot"]
  | .product_change => ["product"]
  | .store_change => ["store", "location"]

/-- `_check_event_type_coverage`. -/
def EventPreservationAxis.checkEventTypeCoverage (ctx : EvaluationContext)
    (submission : SchemaSubmission) : List Deduction :=
  ctx.required_event_types.flatMap (fun et =>
    if !((event_type_patterns et).any (fun pattern =>
        submission.fact_tables.any (fun ft =>
          strContains (strToLower ft.name) pattern))) then
      [{ points := 20
         reason := "No fact table appears to support " ++ et.value ++ " events"
         severity := Severity.critical
         affected_elements := [et.value]
         violation_type := some ViolationType.data_loss
         concrete_example := some
           (et.value ++ " events from the shop cannot be stored anywhere")
         consequence := some ("All " ++ et.value ++
           " data is lost; related business questions cannot be answered")
         fix_hint := some
           ("Add a fact table to capture " ++ et.value ++ " events") }]
    else [])

/-- All lower-cased column names of a fact
(grain columns, measures, dimension keys). -/
def factAllColumns (fact : FactTable) : List String :=
  fact.grain_columns.map (fun gc => (strToLower gc.name))
  ++ fact.measures.map (fun m => (strToLower m.name))
  ++ fact.dimension_keys.map (fun dk => (strToLower dk))

/-- `_check_field_coverage` (only the first sale-like fact is checked). -/
def EventPreservationAxis.checkFieldCoverage (ctx : EvaluationContext)
    (submission : SchemaSubmission) : List Deduction :=
  match submission.fact_tables.filter (fun ft =>
      ["sale", "transaction", "order"].any (fun p =>
        strContains (strToLower ft.name) p)) with
  | [] => []
  | sale_fact :: _ =>
    (if !((factAllColumns sale_fact).any (fun col =>
          strContains col "quantity" || strContains col "qty")) then
      if ctx.config.transactions.grain ≠ TransactionGrain.receipt_level then
        [{ points := 10
           reason := "Sales fact appears to lack quantity measure for line items"
           severity := Severity.moderate
           affected_elements := [sale_fact.name] }]
      else []
    else [])
    ++
    (if ctx.config.transactions.multiple_payments then
      if !((submission.get_relationships_for_fact sale_fact.name).any
          (fun r => strContains (strToLower r.dimension_table) "payment")) then
        if (submission.fact_tables.filter (fun ft =>
            strContains (strToLower ft.name) "payment")).isEmpty then
          [{ points := 15
             reason := "Multiple payments supported but no payment dimension or fact found"
             severity := Severity.major
             affected_elements := [sale_fact.name] }]
        else []
      else []
    else [])

def line_item_patterns : List String :=
  ["line item", "line-item", "lineitem", "item"]

/-- `_check_grain_sufficiency`. -/
def EventPreservationAxis.checkGrainSufficiency (ctx : EvaluationContext)
    (submission : SchemaSubmission) : List Deduction :=
  if ctx.config.transactions.grain = TransactionGrain.line_item_level then
    if (submission.fact_tables.filter (fun ft =>
        line_item_patterns.any (fun p =>
          strContains (strToLower ft.grain_description) p))).isEmpty then
      [{ points := 25
         reason := "Shop uses line-item grain but no line-item level fact table found"
         severity := Severity.critical
         affected_elements := ["grain"]
         violation_type := some ViolationType.data_loss
         concrete_example := some
           "Transaction with 5 line items becomes 1 row; individual item data is lost"
         consequence := some
           "Cannot analyze product-level sales, basket composition, or item-level returns"
         fix_hint := some
           "Add a line-item grain fact table with line_number in the grain" }]
    else []
  else if ctx.config.transactions.grain = TransactionGrain.mixed then
    if (submission.fact_tables.filter (fun ft =>
        line_item_patterns.any (fun p =>
          strContains (strToLower ft.grain_description) p))).isEmpty then
      [{ points := 15
         reason := "Shop uses mixed grain; consider supporting line-item detail when available"
         severity := Severity.moderate
         affected_elements := ["grain"] }]
    else []
  else []

/-- All deductions collected by `EventPreservationAxis.evaluate`. -/
def EventPreservationAxis.deductions (ctx : EvaluationContext)
    (submission : SchemaSubmission) : List Deduction :=
  EventPreservationAxis.checkEventTypeCoverage ctx submission
  ++ EventPreservationAxis.checkFieldCoverage ctx submission
  ++ EventPreservationAxis.checkGrainSufficiency ctx submission

/-- `EventPreservationAxis.evaluate`. -/
def EventPreservationAxis.evaluate (ctx : EvaluationContext)
    (submission : SchemaSubmission) : Except String AxisScore :=
  runDeductionAxis "event_preservation"
    (EventPreservationAxis.deductions ctx submission)

theorem eventPreservation_points_nonneg (ctx : EvaluationContext)
    (submission : SchemaSubmission) :
    ∀ d ∈ EventPreservationAxis.deductions ctx submission, 0 ≤ d.points := by
  intro d hd
  unfold EventPreservationAxis.deductions at hd
  rcases List.mem_append.1 hd with hmem | hmem
  rcases List.mem_append.1 hmem with hmem | hmem
  · unfold EventPreservationAxis.checkEventTypeCoverage at hmem
    rcases List.mem_flatMap.1 hmem with ⟨et, _, hmem⟩
    split at hmem
    · rcases List.mem_singleton.1 hmem with rfl; norm_num
    · cases hmem
  · unfold EventPreservationAxis.checkFieldCoverage at hmem
    split at hmem
    · cases hmem
    · rcases List.mem_append.1 hmem with hmem | hmem
      · split at hmem
        · split at hmem
          · rcases List.mem_singleton.1 hmem with rfl; norm_num
          · cases hmem
        · cases hmem
      · split at hmem
        · split at hmem
          · split at hmem
            · rcases List.mem_singleton.1 hmem with rfl; norm_num
            · cases hmem
          · cases hmem
        · cases hmem
  · unfold EventPreservationAxis.checkGrainSufficiency at hmem
    split at hmem
    · split at hmem
      · rcases List.mem_singleton.1 hmem with rfl; norm_num
      · cases hmem
    · split at hmem
      · split at hmem
        · rcases List.mem_singleton.1 hmem with rfl; norm_num
        · cases hmem
      · cases hmem

/-! ## `evaluator/axes/temporal_correctness.py` -/

def SCDType.value : SCDType → String
  | .type_0 => "type_0"
  | .type_1 => "type_1"
  | .type_2 => "type_2"
  | .type_3 => "type_3"
  | .type_4 => "type_4"
  | .type_6 => "type_6"
  | .none => "none"

/-- `_check_scd_choice`. -/
def TemporalCorrectnessAxis.checkScdChoice (ctx : EvaluationContext)
    (dim : DimensionTable) : List Deduction :=
  (if ctx.requires_scd dim.name then
    if dim.scd_strategy = SCDType.type_1 ∨ dim.scd_strategy = SCDType.none
        ∨ dim.scd_strategy = SCDType.type_0 then
      [{ points := 20
         reason := "Dimension \x27" ++ dim.name ++
           "\x27 has changing attributes but uses " ++ dim.scd_strategy.value ++
           " (no history)"
         severity := Severity.major
         affected_elements := [dim.name] }]
    else []
  else
    if dim.scd_strategy = SCDType.type_2 then
      [{ points := 5
         reason := "Dimension \x27" ++ dim.name ++
           "\x27 uses Type 2 SCD but may not require history tracking"
         severity := Severity.minor
         affected_elements := [dim.name] }]
    else [])
  ++
  (if dim.scd_strategy = SCDType.type_2 ∨ dim.scd_strategy = SCDType.type_6 then
    if (dim.attributes.filter (fun a => a.scd_tracked)).isEmpty then
      [{ points := 10
         reason := "Dimension \x27" ++ dim.name ++ "\x27 uses " ++
           dim.scd_strategy.value ++ " but no attributes are marked as SCD tracked"
         severity := Severity.moderate
         affected_elements := [dim.name] }]
    else []
  else [])

/-- `_check_historical_query_support`; dimensions are resolved through
`get_dimensions_for_fact`, so dangling relationship targets contribute
nothing. -/
def TemporalCorrectnessAxis.checkHistoricalQuerySupport
    (ctx : EvaluationContext) (submission : SchemaSubmission) :
    List Deduction :=
  submission.fact_tables.flatMap (fun fact =>
    (submission.get_dimensions_for_fact fact.name).flatMap (fun dim =>
      if ctx.requires_scd dim.name then
        if dim.scd_strategy = SCDType.type_1 ∨ dim.scd_strategy = SCDType.none
            ∨ dim.scd_strategy = SCDType.type_0 then
          [{ points := 15
             reason := "Historical queries on \x27" ++ fact.name ++
               "\x27 may be incorrect due to \x27" ++ dim.name ++
               "\x27 lacking history"
             severity := Severity.major
             affected_elements := [fact.name, dim.name] }]
        else []
      else []))

/-- `_check_late_arriving_support` (Python truthiness: an empty
`surrogate_key` string counts as missing). -/
def TemporalCorrectnessAxis.checkLateArrivingSupport
    (submission : SchemaSubmission) : List Deduction :=
  if !((submission.dimension_tables.filter (fun dim =>
      strIsEmpty dim.surrogate_key)).isEmpty) then
    [{ points := 10
       reason := "Late-arriving events may cause issues with dimensions lacking surrogate keys: "
         ++ pyListRepr ((submission.dimension_tables.filter (fun dim =>
              strIsEmpty dim.surrogate_key)).map (fun d => d.name))
       severity := Severity.moderate
       affected_elements := (submission.dimension_tables.filter (fun dim =>
         strIsEmpty dim.surrogate_key)).map (fun d => d.name) }]
  else []

/-- `_check_backdated_support`. -/
def TemporalCorrectnessAxis.checkBackdatedSupport
    (submission : SchemaSubmission) : List Deduction :=
  submission.fact_tables.flatMap (fun fact =>
    if !(((factAllColumns fact).any (fun col =>
          strContains col "event" && (strContains col "time"
            || strContains col "date" || strContains col "ts")))
        || ((factAllColumns fact).any (fun col =>
          strContains col "business" || strContains col "effective"))) then
      [{ points := 10
         reason := "Fact \x27" ++ fact.name ++
           "\x27 may not distinguish event time from business effective date"
         severity := Severity.moderate
         affected_elements := [fact.name] }]
    else [])

/-- All deductions collected by `TemporalCorrectnessAxis.evaluate`. -/
def TemporalCorrectnessAxis.deductions (ctx : EvaluationContext)
    (submission : SchemaSubmission) : List Deduction :=
  submission.dimension_tables.flatMap
    (TemporalCorrectnessAxis.checkScdChoice ctx)
  ++ TemporalCorrectnessAxis.checkHistoricalQuerySupport ctx submission
  ++ (if ctx.config.time.late_arriving_events then
        TemporalCorrectnessAxis.checkLateArrivingSupport submission else [])
  ++ (if ctx.config.time.backdated_corrections then
        TemporalCorrectnessAxis.checkBackdatedSupport submission else [])

/-- `TemporalCorrectnessAxis.evaluate`. -/
def TemporalCorrectnessAxis.evaluate (ctx : EvaluationContext)
    (submission : SchemaSubmission) : Except String AxisScore :=
  runDeductionAxis "temporal_correctness"
    (TemporalCorrectnessAxis.deductions ctx submission)

theorem temporal_points_nonneg (ctx : EvaluationContext)
    (submission : SchemaSubmission) :
    ∀ d ∈ TemporalCorrectnessAxis.deductions ctx submission, 0 ≤ d.points := by
  intro d hd
  unfold TemporalCorrectnessAxis.deductions at hd
  rcases List.mem_append.1 hd with hmem | hmem
  rcases List.mem_append.1 hmem with hmem | hmem
  rcases List.mem_append.1 hmem with hmem | hmem
  · rcases List.mem_flatMap.1 hmem with ⟨dim, _, hmem⟩
    unfold TemporalCorrectnessAxis.checkScdChoice at hmem
    rcases List.mem_append.1 hmem with hmem | hmem
    · split at hmem
      · split at hmem
        · rcases List.mem_singleton.1 hmem with rfl; norm_num
        · cases hmem
      · split at hmem
        · rcases List.mem_singleton.1 hmem with rfl; norm_num
        · cases hmem
    · split at hmem
      · split at hmem
        · rcases List.mem_singleton.1 hmem with rfl; norm_num
        · cases hmem
      · cases hmem
  · unfold TemporalCorrectnessAxis.checkHistoricalQuerySupport at hmem
    rcases List.mem_flatMap.1 hmem with ⟨fact, _, hmem⟩
    rcases List.mem_flatMap.1 hmem with ⟨dim, _, hmem⟩
    split at hmem
    · split at hmem
      · rcases List.mem_singleton.1 hmem with rfl; norm_num
      · cases hmem
    · cases hmem
  · split at hmem
    · unfold TemporalCorrectnessAxis.checkLateArrivingSupport at hmem
      split at hmem
      · rcases List.mem_singleton.1 hmem with rfl; norm_num
      · cases hmem
    · cases hmem
  · split at hmem
    · unfold TemporalCorrectnessAxis.checkBackdatedSupport at hmem
      rcases List.mem_flatMap.1 hmem with ⟨fact, _, hmem⟩
      split at hmem
      · rcases List.mem_singleton.1 hmem with rfl; norm_num
      · cases hmem
    · cases hmem

/-! ## `evaluator/axes/semantic_faithfulness.py` -/

/-- `_check_transaction_modeling`. -/
def SemanticFaithfulnessAxis.checkTransactionModeling
    (ctx : EvaluationContext) (submission : SchemaSubmission) :
    List Deduction :=
  (if ctx.config.transactions.multiple_payments then
    if !(submission.fact_tables.any (fun ft =>
          strContains (strToLower ft.name) "payment")
        || submission.dimension_tables.any (fun dt =>
          strContains (strToLower dt.name) "payment")) then
      [{ points := 15
         reason := "Multiple payments are supported but no payment-specific modeling found"
         severity := Severity.major
         affected_elements := ["payment"]
         violation_type := some ViolationType.semantic_mismatch
         concrete_example := some
           "Transaction paid $50 cash + $75 credit card, but model only stores one payment"
         consequence := some
           "Cannot analyze payment method mix, reconcile transactions, or track tender types"
         fix_hint := some
           "Add a payment fact table or payment bridge table for many-to-one payments" }]
    else []
  else [])
  ++
  (if ctx.config.transactions.voids_enabled then
    if !(submission.fact_tables.any (fun ft =>
        strContains (strToLower ft.name) "void"
        || strContains (strToLower ft.grain_description) "status")) then
      [{ points := 10
         reason := "Voids are supported but no void tracking mechanism found"
         severity := Severity.moderate
         affected_elements := ["void"] }]
    else []
  else [])

/-- `_check_customer_modeling`. -/
def SemanticFaithfulnessAxis.checkCustomerModeling
    (ctx : EvaluationContext) (submission : SchemaSubmission) :
    List Deduction :=
  if ctx.config.customers.customer_id_reliability
      = CustomerIdReliability.absent then
    if !((submission.dimension_tables.filter (fun dt =>
        strContains (strToLower dt.name) "customer")).isEmpty) then
      [{ points := 5
         reason := "Customer dimension exists but shop has no customer IDs"
         severity := Severity.minor
         affected_elements := (submission.dimension_tables.filter (fun dt =>
           strContains (strToLower dt.name) "customer")).map (fun d => d.name) }]
    else []
  else
    (if (submission.dimension_tables.filter (fun dt =>
        strContains (strToLower dt.name) "customer")).isEmpty then
      [{ points := 15
         reason := "Shop has customer IDs but no customer dimension found"
         severity := Severity.major
         affected_elements := ["customer"] }]
    else [])
    ++
    (if ctx.config.customers.household_grouping
        && !((submission.dimension_tables.filter (fun dt =>
            strContains (strToLower dt.name) "customer")).isEmpty) then
      if !((submission.dimension_tables.filter (fun dt =>
            strContains (strToLower dt.name) "customer")).any (fun dim =>
            dim.attributes.any (fun attr =>
              strContains (strToLower attr.name) "household")))
          && !(submission.dimension_tables.any (fun dt =>
            strContains (strToLower dt.name) "household")) then
        [{ points := 10
           reason := "Household grouping is used but not modeled"
           severity := Severity.moderate
           affected_elements := ["household"] }]
      else []
    else [])

/-- `_check_promotion_modeling`. -/
def SemanticFaithfulnessAxis.checkPromotionModeling
    (ctx : EvaluationContext) (submission : SchemaSubmission) :
    List Deduction :=
  (if ctx.config.promotions.promotions_per_line_item
      = PromotionsPerLineItem.many then
    if !(submission.bridge_tables.any (fun bt =>
          strContains (strToLower bt.name) "promo"))
        && !(submission.fact_tables.any (fun ft =>
          strContains (strToLower ft.name) "promo")) then
      [{ points := 15
         reason := "Multiple promotions per line item but no bridge/fact to support many-to-many"
         severity := Severity.major
         affected_elements := ["promotion"] }]
    else []
  else [])
  ++
  (if ctx.config.promotions.basket_level_promotions then
    if !(submission.fact_tables.any (fun ft =>
          strContains (strToLower ft.name) "basket"
          || strContains (strToLower ft.name) "order"))
        && (submission.dimension_tables.filter (fun dt =>
          strContains (strToLower dt.name) "promo"
          || strContains (strToLower dt.name) "discount")).isEmpty then
      [{ points := 10
         reason := "Basket-level promotions exist but may not be properly modeled"
         severity := Severity.moderate
         affected_elements := ["basket_promotion"] }]
    else []
  else [])

/-- The fact tables counted as return facts by
`_check_returns_modeling`. -/
def returnFactsOf (submission : SchemaSubmission) : List FactTable :=
  submission.fact_tables.filter (fun ft =>
    strContains (strToLower ft.name) "return"
    || strContains (strToLower ft.name) "refund")

/-- Whether any grain column or dimension key of a return fact names the
original transaction. -/
def returnFactHasOrigRef (rf : FactTable) : Bool :=
  rf.grain_columns.any (fun gc =>
    strContains (strToLower gc.name) "original"
    || strContains (strToLower gc.name) "orig")
  || rf.dimension_keys.any (fun dk =>
    strContains (strToLower dk) "original" || strContains (strToLower dk) "orig")

/-- `_check_returns_modeling`: the original-transaction-reference check
runs only under the `always` reference policy. -/
def SemanticFaithfulnessAxis.checkReturnsModeling
    (ctx : EvaluationContext) (submission : SchemaSubmission) :
    List Deduction :=
  if ctx.config.returns.reference_policy ≠ ReturnsReferencePolicy.never then
    (if (returnFactsOf submission).isEmpty then
      [{ points := 15
         reason := "Returns are supported but no return fact table found"
         severity := Severity.major
         affected_elements := ["returns"]
         violation_type := some ViolationType.under_modeling
         concrete_example := some
           "Customer returns item for $50 refund - nowhere to record this event"
         consequence := some
           "Return rates, refund amounts, and customer satisfaction metrics unavailable"
         fix_hint := some
           "Add a returns fact table to capture return events and reasons" }]
    else [])
    ++
    (if ctx.config.returns.reference_policy = ReturnsReferencePolicy.always then
      (returnFactsOf submission).flatMap (fun rf =>
        if !(returnFactHasOrigRef rf) then
          [{ points := 10
             reason := "Return fact \x27" ++ rf.name ++
               "\x27 should reference original transaction"
             severity := Severity.moderate
             affected_elements := [rf.name] }]
        else [])
    else [])
  else []

/-- `_check_inventory_modeling`. -/
def SemanticFaithfulnessAxis.checkInventoryModeling
    (ctx : EvaluationContext) (submission : SchemaSubmission) :
    List Deduction :=
  if ctx.config.inventory.tracked then
    if (submission.fact_tables.filter (fun ft =>
        strContains (strToLower ft.name) "inventory"
        || strContains (strToLower ft.name) "stock")).isEmpty then
      [{ points := 15
         reason := "Inventory is tracked but no inventory fact table found"
         severity := Severity.major
         affected_elements := ["inventory"] }]
    else []
  else []

/-- All deductions collected by `SemanticFaithfulnessAxis.evaluate`. -/
def SemanticFaithfulnessAxis.deductions (ctx : EvaluationContext)
    (submission : SchemaSubmission) : List Deduction :=
  SemanticFaithfulnessAxis.checkTransactionModeling ctx submission
  ++ SemanticFaithfulnessAxis.checkCustomerModeling ctx submission
  ++ SemanticFaithfulnessAxis.checkPromotionModeling ctx submission
  ++ SemanticFaithfulnessAxis.checkReturnsModeling ctx submission
  ++ SemanticFaithfulnessAxis.checkInventoryModeling ctx submission

/-- `SemanticFaithfulnessAxis.evaluate`. -/
def SemanticFaithfulnessAxis.evaluate (ctx : EvaluationContext)
    (submission : SchemaSubmission) : Except String AxisScore :=
  runDeductionAxis "semantic_faithfulness"
    (SemanticFaithfulnessAxis.deductions ctx submission)

theorem semantic_points_nonneg (ctx : EvaluationContext)
    (submission : SchemaSubmission) :
    ∀ d ∈ SemanticFaithfulnessAxis.deductions ctx submission,
      0 ≤ d.points := by
  intro d hd
  unfold SemanticFaithfulnessAxis.deductions at hd
  rcases List.mem_append.1 hd with hmem | hmem
  rcases List.mem_append.1 hmem with hmem | hmem
  rcases List.mem_append.1 hmem with hmem | hmem
  rcases List.mem_append.1 hmem with hmem | hmem
  · unfold SemanticFaithfulnessAxis.checkTransactionModeling at hmem
    rcases List.mem_append.1 hmem with hmem | hmem <;>
    · split at hmem
      · split at hmem
        · rcases List.mem_singleton.1 hmem with rfl; norm_num
        · cases hmem
      · cases hmem
  · unfold SemanticFaithfulnessAxis.checkCustomerModeling at hmem
    split at hmem
    · split at hmem
      · rcases List.mem_singleton.1 hmem with rfl; norm_num
      · cases hmem
    · rcases List.mem_append.1 hmem with hmem | hmem
      · split at hmem
        · rcases List.mem_singleton.1 hmem with rfl; norm_num
        · cases hmem
      · split at hmem
        · split at hmem
          · rcases List.mem_singleton.1 hmem with rfl; norm_num
          · cases hmem
        · cases hmem
  · unfold SemanticFaithfulnessAxis.checkPromotionModeling at hmem
    rcases List.mem_append.1 hmem with hmem | hmem <;>
    · split at hmem
      · split at hmem
        · rcases List.mem_singleton.1 hmem with rfl; norm_num
        · cases hmem
      · cases hmem
  · unfold SemanticFaithfulnessAxis.checkReturnsModeling at hmem
    split at hmem
    · rcases List.mem_append.1 hmem with hmem | hmem
      · split at hmem
        · rcases List.mem_singleton.1 hmem with rfl; norm_num
        · cases hmem
      · split at hmem
        · rcases List.mem_flatMap.1 hmem with ⟨rf, _, hmem⟩
          split at hmem
          · rcases List.mem_singleton.1 hmem with rfl; norm_num
          · cases hmem
        · cases hmem
    · cases hmem
  · unfold SemanticFaithfulnessAxis.checkInventoryModeling at hmem
    split at hmem
    · split at hmem
      · rcases List.mem_singleton.1 hmem with rfl; norm_num
      · cases hmem
    · cases hmem

/-! ## `evaluator/axes/structural_optimality.py` -/

/-- `_check_snowflaking`. -/
def StructuralOptimalityAxis.checkSnowflaking
    (submission : SchemaSubmission) : List Deduction :=
  ((submission.dimension_tables.filter (fun dim =>
      dim.parent_dimension.isSome)).flatMap (fun dim =>
    match submission.get_dimension_table (dim.parent_dimension.getD "") with
    | some parent =>
        if parent.attributes.length ≤ 3 then
          [{ points := 5
             reason := "Dimension \x27" ++ dim.name ++
               "\x27 snowflakes to \x27" ++ parent.name ++
               "\x27 which has few attributes"
             severity := Severity.minor
             affected_elements := [dim.name, parent.name] }]
        else []
    | Option.none => []))
  ++
  (if (submission.dimension_tables.filter (fun dim =>
        dim.parent_dimension.isSome)).length
      > submission.dimension_tables.length / 2 then
    [{ points := 10
       reason := "Excessive snowflaking may complicate queries unnecessarily"
       severity := Severity.moderate
       affected_elements := (submission.dimension_tables.filter (fun dim =>
         dim.parent_dimension.isSome)).map (fun d => d.name) }]
  else [])

def redundancy_patterns : List (String × String) :=
  [("date", "time"), ("product", "item"), ("store", "location")]

/-- `_check_redundant_dimensions`. -/
def StructuralOptimalityAxis.checkRedundantDimensions
    (submission : SchemaSubmission) : List Deduction :=
  redundancy_patterns.flatMap (fun pat =>
    if (submission.dimension_tables.any (fun dt =>
          strContains (strToLower dt.name) pat.1))
        && (submission.dimension_tables.any (fun dt =>
          strContains (strToLower dt.name) pat.2)) then
      [{ points := 5
         reason := "Dimensions with \x27" ++ pat.1 ++ "\x27 and \x27" ++
           pat.2 ++ "\x27 might be redundant"
         severity := Severity.minor
         affected_elements := [pat.1, pat.2] }]
    else [])

/-- `_check_unnecessary_facts` (the duplicate-grain scan breaks at the
first other fact with an identical grain description). -/
def StructuralOptimalityAxis.checkUnnecessaryFacts
    (submission : SchemaSubmission) : List Deduction :=
  submission.fact_tables.flatMap (fun fact =>
    (if fact.measures.isEmpty then
      [{ points := 10
         reason := "Fact table \x27" ++ fact.name ++
           "\x27 has no measures (factless fact should be intentional)"
         severity := Severity.moderate
         affected_elements := [fact.name] }]
    else [])
    ++
    (match submission.fact_tables.find? (fun other =>
        fact.name ≠ other.name
        && (strToLower fact.grain_description)
          = (strToLower other.grain_description)) with
    | some other =>
        [{ points := 15
           reason := "Fact tables \x27" ++ fact.name ++ "\x27 and \x27" ++
             other.name ++ "\x27 have identical grain - consider consolidating"
           severity := Severity.major
           affected_elements := [fact.name, other.name] }]
    | Option.none => []))

/-- `_check_over_engineering`. -/
def StructuralOptimalityAxis.checkOverEngineering (ctx : EvaluationContext)
    (submission : SchemaSubmission) : List Deduction :=
  (if submission.fact_tables.length >
      (1 + (if ctx.config.returns.reference_policy
              ≠ ReturnsReferencePolicy.never then 1 else 0)
         + (if ctx.config.inventory.tracked then 1 else 0)) * 2 then
    [{ points := 10
       reason := "Schema has " ++ toString submission.fact_tables.length ++
         " fact tables; " ++
         toString (1 + (if ctx.config.returns.reference_policy
              ≠ ReturnsReferencePolicy.never then 1 else 0)
            + (if ctx.config.inventory.tracked then 1 else 0)) ++ "-" ++
         toString ((1 + (if ctx.config.returns.reference_policy
              ≠ ReturnsReferencePolicy.never then 1 else 0)
            + (if ctx.config.inventory.tracked then 1 else 0)) + 2) ++
         " may be sufficient"
       severity := Severity.moderate
       affected_elements := ["fact_tables"]
       violation_type := some ViolationType.over_modeling
       concrete_example := some ("Created " ++
         toString submission.fact_tables.length ++
         " facts for a shop that needs " ++
         toString (1 + (if ctx.config.returns.reference_policy
              ≠ ReturnsReferencePolicy.never then 1 else 0)
            + (if ctx.config.inventory.tracked then 1 else 0)) ++ "-" ++
         toString ((1 + (if ctx.config.returns.reference_policy
              ≠ ReturnsReferencePolicy.never then 1 else 0)
            + (if ctx.config.inventory.tracked then 1 else 0)) + 2))
       consequence := some
         "Increased complexity, maintenance burden, and query confusion"
       fix_hint := some
         "Review if some fact tables can be consolidated or removed" }]
  else [])
  ++
  (if submission.dimension_tables.length >
      (4 + (if ctx.config.promotions.basket_level_promotions
        then 1 else 0)) * 2 then
    [{ points := 5
       reason := "Schema has " ++ toString submission.dimension_tables.length
         ++ " dimensions; " ++
         toString (4 + (if ctx.config.promotions.basket_level_promotions
           then 1 else 0)) ++ "-" ++
         toString ((4 + (if ctx.config.promotions.basket_level_promotions
           then 1 else 0)) + 3) ++ " may be sufficient"
       severity := Severity.minor
       affected_elements := ["dimension_tables"] }]
  else [])

/-- All deductions collected by `StructuralOptimalityAxis.evaluate`. -/
def StructuralOptimalityAxis.deductions (ctx : EvaluationContext)
    (submission : SchemaSubmission) : List Deduction :=
  StructuralOptimalityAxis.checkSnowflaking submission
  ++ StructuralOptimalityAxis.checkRedundantDimensions submission
  ++ StructuralOptimalityAxis.checkUnnecessaryFacts submission
  ++ StructuralOptimalityAxis.checkOverEngineering ctx submission

/-- `StructuralOptimalityAxis.evaluate`. -/
def StructuralOptimalityAxis.evaluate (ctx : EvaluationContext)
    (submission : SchemaSubmission) : Except String AxisScore :=
  runDeductionAxis "structural_optimality"
    (StructuralOptimalityAxis.deductions ctx submission)

theorem structural_points_nonneg (ctx : EvaluationContext)
    (submission : SchemaSubmission) :
    ∀ d ∈ StructuralOptimalityAxis.deductions ctx submission,
      0 ≤ d.points := by
  intro d hd
  unfold StructuralOptimalityAxis.deductions at hd
  rcases List.mem_append.1 hd with hmem | hmem
  rcases List.mem_append.1 hmem with hmem | hmem
  rcases List.mem_append.1 hmem with hmem | hmem
  · unfold StructuralOptimalityAxis.checkSnowflaking at hmem
    rcases List.mem_append.1 hmem with hmem | hmem
    · rcases List.mem_flatMap.1 hmem with ⟨dim, _, hmem⟩
      split at hmem
      · split at hmem
        · rcases List.mem_singleton.1 hmem with rfl; norm_num
        · cases hmem
      · cases hmem
    · split at hmem
      · rcases List.mem_singleton.1 hmem with rfl; norm_num
      · cases hmem
  · unfold StructuralOptimalityAxis.checkRedundantDimensions at hmem
    rcases List.mem_flatMap.1 hmem with ⟨pat, _, hmem⟩
    split at hmem
    · rcases List.mem_singleton.1 hmem with rfl; norm_num
    · cases hmem
  · unfold StructuralOptimalityAxis.checkUnnecessaryFacts at hmem
    rcases List.mem_flatMap.1 hmem with ⟨fact, _, hmem⟩
    rcases List.mem_append.1 hmem with hmem | hmem
    · split at hmem
      · rcases List.mem_singleton.1 hmem with rfl; norm_num
      · cases hmem
    · split at hmem
      · rcases List.mem_singleton.1 hmem with rfl; norm_num
      · cases hmem
  · unfold StructuralOptimalityAxis.checkOverEngineering at hmem
    rcases List.mem_append.1 hmem with hmem | hmem <;>
      (repeat' split at hmem) <;>
      simp only [List.mem_singleton, List.not_mem_nil] at hmem <;>
      subst hmem <;> norm_num

/-! ## `evaluator/axes/queryability.py` — the bonus axis -/

/-- `_check_date_dimension`. -/
def QueryabilityAxis.checkDateDimension (submission : SchemaSubmission) :
    List Deduction :=
  (if !((submission.dimension_tables.filter (fun dt =>
      strContains (strToLower dt.name) "date"
      || strContains (strToLower dt.name) "time")).isEmpty) then
    [{ points := 15
       reason := "Date/time dimension present for time-based analysis"
       severity := Severity.minor
       affected_elements := (submission.dimension_tables.filter (fun dt =>
         strContains (strToLower dt.name) "date"
         || strContains (strToLower dt.name) "time")).map (fun d => d.name) }]
  else [])
  ++
  ((submission.dimension_tables.filter (fun dt =>
      strContains (strToLower dt.name) "date"
      || strContains (strToLower dt.name) "time")).flatMap (fun dim =>
    if (["year", "quarter", "month", "week", "day", "fiscal"].filter
        (fun attr => dim.attributes.any (fun a =>
          strContains (strToLower a.name) attr))).length ≥ 3 then
      [{ points := 10
         reason := "Date dimension \x27" ++ dim.name ++
           "\x27 has rich time hierarchy attributes"
         severity := Severity.minor
         affected_elements := [dim.name] }]
    else []))

/-- Python `dict` key order: first occurrence of each key. -/
def firstOccurrences (l : List String) : List String :=
  l.foldl (fun acc x => if acc.contains x then acc else acc ++ [x]) []

/-- The conformed-dimension names of `_check_conformed_dimensions`:
dimension names appearing in at least two relationships, in dict
insertion order. -/
def conformedDims (submission : SchemaSubmission) : List String :=
  (firstOccurrences (submission.relationships.map
      (fun r => r.dimension_table))).filter (fun name =>
    (submission.relationships.filter
      (fun r => r.dimension_table = name)).length ≥ 2)

/-- `_check_conformed_dimensions`. -/
def QueryabilityAxis.checkConformedDimensions
    (submission : SchemaSubmission) : List Deduction :=
  if !((conformedDims submission).isEmpty) then
    [{ points := 15
       reason := "Conformed dimensions used across multiple facts: " ++
         pyListRepr (conformedDims submission)
       severity := Severity.minor
       affected_elements := conformedDims submission }]
  else []

def agg_patterns : List String :=
  ["summary", "aggregate", "daily", "monthly", "snapshot"]

/-- `_check_aggregate_tables`. -/
def QueryabilityAxis.checkAggregateTables (submission : SchemaSubmission) :
    List Deduction :=
  if !((submission.fact_tables.filter (fun ft =>
      agg_patterns.any (fun p => strContains (strToLower ft.name) p))).isEmpty) then
    [{ points := 10
       reason := "Pre-aggregated tables may improve query performance: " ++
         pyListRepr ((submission.fact_tables.filter (fun ft =>
           agg_patterns.any (fun p =>
             strContains (strToLower ft.name) p))).map (fun f => f.name))
       severity := Severity.minor
       affected_elements := (submission.fact_tables.filter (fun ft =>
         agg_patterns.any (fun p =>
           strContains (strToLower ft.name) p))).map (fun f => f.name) }]
  else []

/-- `name.split("_")[0].lower()` (only the text before the first
underscore is consulted). -/
def namePrefixLower (name : String) : String :=
  strToLower (String.mk (name.toList.takeWhile (fun c => c ≠ '_')))

/-- `_check_naming_conventions`. -/
def QueryabilityAxis.checkNamingConventions (submission : SchemaSubmission) :
    List Deduction :=
  (if (submission.fact_tables.map (fun ft => namePrefixLower ft.name)).all
      (fun p => p = "fact" || p = "fct") then
    [{ points := 5
       reason := "Consistent fact table naming convention"
       severity := Severity.minor
       affected_elements := ["naming"] }]
  else [])
  ++
  (if (submission.dimension_tables.map
      (fun dt => namePrefixLower dt.name)).all
      (fun p => p = "dim" || p = "dimension") then
    [{ points := 5
       reason := "Consistent dimension table naming convention"
       severity := Severity.minor
       affected_elements := ["naming"] }]
  else [])
  ++
  (if (submission.dimension_tables.map
      (fun dt => (strToLower dt.surrogate_key))).all (fun sk =>
      strEndsWith sk "_key" || strEndsWith sk "_sk" || strEndsWith sk "_id") then
    [{ points := 5
       reason := "Consistent surrogate key naming convention"
       severity := Severity.minor
       affected_elements := ["naming"] }]
  else [])

/-- All bonuses collected by `QueryabilityAxis.evaluate`. -/
def QueryabilityAxis.bonuses (submission : SchemaSubmission) :
    List Deduction :=
  QueryabilityAxis.checkDateDimension submission
  ++ QueryabilityAxis.checkConformedDimensions submission
  ++ QueryabilityAxis.checkAggregateTables submission
  ++ QueryabilityAxis.checkNamingConventions submission

/-- `QueryabilityAxis._generate_bonus_commentary`. -/
def QueryabilityAxis.generateBonusCommentary (score : Int) : String :=
  if score ≥ 40 then
    "Good queryability with multiple best practices implemented."
  else if score ≥ 20 then
    "Decent queryability with some best practices."
  else if score > 0 then
    "Basic queryability; consider adding more analytical conveniences."
  else
    "No specific queryability bonuses detected."

/-- `QueryabilityAxis.evaluate`: starts at 0 and adds bonuses, capped at
the axis maximum. -/
def QueryabilityAxis.evaluate (submission : SchemaSubmission) :
    Except String AxisScore :=
  match validateEach mkResultDeduction (QueryabilityAxis.bonuses submission)
  with
  | .error e => .error e
  | .ok _ =>
    .ok { axis_name := "queryability"
          score := min 100 (sumPoints (QueryabilityAxis.bonuses submission))
          max_score := 100
          deductions := QueryabilityAxis.bonuses submission
          commentary := QueryabilityAxis.generateBonusCommentary
            (min 100 (sumPoints (QueryabilityAxis.bonuses submission))) }

theorem queryability_points_nonneg (submission : SchemaSubmission) :
    ∀ d ∈ QueryabilityAxis.bonuses submission, 0 ≤ d.points := by
  intro d hd
  unfold QueryabilityAxis.bonuses at hd
  rcases List.mem_append.1 hd with hmem | hmem
  rcases List.mem_append.1 hmem with hmem | hmem
  rcases List.mem_append.1 hmem with hmem | hmem
  · unfold QueryabilityAxis.checkDateDimension at hmem
    rcases List.mem_append.1 hmem with hmem | hmem
    · split at hmem
      · rcases List.mem_singleton.1 hmem with rfl; norm_num
      · cases hmem
    · rcases List.mem_flatMap.1 hmem with ⟨dim, _, hmem⟩
      split at hmem
      · rcases List.mem_singleton.1 hmem with rfl; norm_num
      · cases hmem
  · unfold QueryabilityAxis.checkConformedDimensions at hmem
    split at hmem
    · rcases List.mem_singleton.1 hmem with rfl; norm_num
    · cases hmem
  · unfold QueryabilityAxis.checkAggregateTables at hmem
    split at hmem
    · rcases List.mem_singleton.1 hmem with rfl; norm_num
    · cases hmem
  · unfold QueryabilityAxis.checkNamingConventions at hmem
    rcases List.mem_append.1 hmem with hmem | hmem
    rcases List.mem_append.1 hmem with hmem | hmem <;>
      first
      | (split at hmem
         · rcases List.mem_singleton.1 hmem with rfl; norm_num
         · cases hmem)
    split at hmem
    · rcases List.mem_singleton.1 hmem with rfl; norm_num
    · cases hmem

/-! ## `evaluator/engine.py` — the Schema Evaluation Engine -/

/-- `SchemaEvaluator.evaluate`: runs the six axes in their fixed order,
then sums scores and maxima.  A `TypeError` escaping any axis (see
`mkResultDeduction`) propagates. -/
def SchemaEvaluator.evaluate (ctx : EvaluationContext)
    (submission : SchemaSubmission) : Except String EvaluationResult :=
  match EventPreservationAxis.evaluate ctx submission with
  | .error e => .error e
  | .ok s1 =>
  match GrainCorrectnessAxis.evaluate submission with
  | .error e => .error e
  | .ok s2 =>
  match TemporalCorrectnessAxis.evaluate ctx submission with
  | .error e => .error e
  | .ok s3 =>
  match SemanticFaithfulnessAxis.evaluate ctx submission with
  | .error e => .error e
  | .ok s4 =>
  match StructuralOptimalityAxis.evaluate ctx submission with
  | .error e => .error e
  | .ok s5 =>
  match QueryabilityAxis.evaluate submission with
  | .error e => .error e
  | .ok s6 =>
    .ok { total_score :=
            (([s1, s2, s3, s4, s5, s6]).map (fun s => s.score)).sum
          max_possible_score :=
            (([s1, s2, s3, s4, s5, s6]).map (fun s => s.max_score)).sum
          axis_scores := [s1, s2, s3, s4, s5, s6] }

theorem runDeductionAxis_ok_bounds {name : String} {deds : List Deduction}
    {s : AxisScore} (hok : runDeductionAxis name deds = .ok s)
    (hnn : ∀ d ∈ deds, 0 ≤ d.points) :
    0 ≤ s.score ∧ s.score ≤ s.max_score := by
  unfold runDeductionAxis at hok
  cases hval : validateEach mkResultDeduction deds with
  | error e => rw [hval] at hok; cases hok
  | ok v =>
      rw [hval] at hok
      have hs := Except.ok.inj hok
      have hsum : 0 ≤ sumPoints deds := by
        unfold sumPoints
        refine List.sum_nonneg ?_
        intro x hx
        rcases List.mem_map.1 hx with ⟨d, hd, rfl⟩
        exact hnn d hd
      rw [← hs]
      refine ⟨le_max_left _ _, ?_⟩
      simp only
      refine max_le (by norm_num) (by omega)

theorem eventPreservation_evaluate_bounds {ctx : EvaluationContext}
    {submission : SchemaSubmission} {s : AxisScore}
    (h : EventPreservationAxis.evaluate ctx submission = .ok s) :
    0 ≤ s.score ∧ s.score ≤ s.max_score :=
  runDeductionAxis_ok_bounds h (eventPreservation_points_nonneg ctx submission)

theorem grain_evaluate_bounds {submission : SchemaSubmission} {s : AxisScore}
    (h : GrainCorrectnessAxis.evaluate submission = .ok s) :
    0 ≤ s.score ∧ s.score ≤ s.max_score :=
  runDeductionAxis_ok_bounds h (grainDeductions_points_nonneg submission)

theorem temporal_evaluate_bounds {ctx : EvaluationContext}
    {submission : SchemaSubmission} {s : AxisScore}
    (h : TemporalCorrectnessAxis.evaluate ctx submission = .ok s) :
    0 ≤ s.score ∧ s.score ≤ s.max_score :=
  runDeductionAxis_ok_bounds h (temporal_points_nonneg ctx submission)

theorem semantic_evaluate_bounds {ctx : EvaluationContext}
    {submission : SchemaSubmission} {s : AxisScore}
    (h : SemanticFaithfulnessAxis.evaluate ctx submission = .ok s) :
    0 ≤ s.score ∧ s.score ≤ s.max_score :=
  runDeductionAxis_ok_bounds h (semantic_points_nonneg ctx submission)

theorem structural_evaluate_bounds {ctx : EvaluationContext}
    {submission : SchemaSubmission} {s : AxisScore}
    (h : StructuralOptimalityAxis.evaluate ctx submission = .ok s) :
    0 ≤ s.score ∧ s.score ≤ s.max_score :=
  runDeductionAxis_ok_bounds h (structural_points_nonneg ctx submission)

theorem queryability_evaluate_bounds {submission : SchemaSubmission}
    {s : AxisScore} (h : QueryabilityAxis.evaluate submission = .ok s) :
    0 ≤ s.score ∧ s.score ≤ s.max_score := by
  unfold QueryabilityAxis.evaluate at h
  cases hval : validateEach mkResultDeduction
      (QueryabilityAxis.bonuses submission) with
  | error e => rw [hval] at h; cases h
  | ok v =>
      rw [hval] at h
      have hs := Except.ok.inj h
      have hsum : 0 ≤ sumPoints (QueryabilityAxis.bonuses submission) := by
        unfold sumPoints
        refine List.sum_nonneg ?_
        intro x hx
        rcases List.mem_map.1 hx with ⟨d, hd, rfl⟩
        exact queryability_points_nonneg submission d hd
      rw [← hs]
      exact ⟨le_min (by norm_num) hsum, min_le_left _ _⟩

/-- C1: whenever `SchemaEvaluator.evaluate` returns a result, every axis
score satisfies `0 ≤ score ≤ max_score` and the total score is the sum of
the individual axis scores. -/
theorem evaluation_boundedness (ctx : EvaluationContext)
    (submission : SchemaSubmission) (r : EvaluationResult)
    (hok : SchemaEvaluator.evaluate ctx submission = .ok r) :
    (∀ s ∈ r.axis_scores, 0 ≤ s.score ∧ s.score ≤ s.max_score) ∧
    r.total_score = (r.axis_scores.map (fun s => s.score)).sum := by
  unfold SchemaEvaluator.evaluate at hok
  cases h1 : EventPreservationAxis.evaluate ctx submission with
  | error e => rw [h1] at hok; cases hok
  | ok s1 =>
  rw [h1] at hok
  cases h2 : GrainCorrectnessAxis.evaluate submission with
  | error e => rw [h2] at hok; cases hok
  | ok s2 =>
  rw [h2] at hok
  cases h3 : TemporalCorrectnessAxis.evaluate ctx submission with
  | error e => rw [h3] at hok; cases hok
  | ok s3 =>
  rw [h3] at hok
  cases h4 : SemanticFaithfulnessAxis.evaluate ctx submission with
  | error e => rw [h4] at hok; cases hok
  | ok s4 =>
  rw [h4] at hok
  cases h5 : StructuralOptimalityAxis.evaluate ctx submission with
  | error e => rw [h5] at hok; cases hok
  | ok s5 =>
  rw [h5] at hok
  cases h6 : QueryabilityAxis.evaluate submission with
  | error e => rw [h6] at hok; cases hok
  | ok s6 =>
  rw [h6] at hok
  have hr := Except.ok.inj hok
  subst hr
  refine ⟨?_, rfl⟩
  intro s hs
  simp only [List.mem_cons, List.not_mem_nil, or_false] at hs
  rcases hs with rfl | rfl | rfl | rfl | rfl | rfl
  · exact eventPreservation_evaluate_bounds h1
  · exact grain_evaluate_bounds h2
  · exact temporal_evaluate_bounds h3
  · exact semantic_evaluate_bounds h4
  · exact structural_evaluate_bounds h5
  · exact queryability_evaluate_bounds h6

/-! ## Concrete evaluation scenarios -/

/-- A configuration with every optional feature off and line-item grain. -/
def plainConfig : ShopConfiguration :=
  { seed := 42
    shop_name := "Quick Mart"
    transactions := ⟨TransactionGrain.line_item_level, false, false, false⟩
    time := ⟨TimestampBusinessDateRelation.same, false, false⟩
    products := ⟨false, ProductHierarchyChangeFrequency.none, false, false⟩
    customers := ⟨false, CustomerIdReliability.absent, false⟩
    stores := ⟨true, false, false, false⟩
    promotions := ⟨PromotionsPerLineItem.one, false, false, false⟩
    returns := ⟨ReturnsReferencePolicy.never,
      ReturnsPricingPolicy.original_price⟩
    inventory := ⟨false, Option.none⟩ }

def plainCtx : EvaluationContext := ⟨plainConfig, ⟨42, []⟩⟩

/-- A clean line-item sales fact. -/
def cleanSalesFact : FactTable :=
  { name := "fact_sales"
    grain_description := "one row per line item"
    grain_columns := [⟨"transaction_id", Option.none, true⟩]
    measures := [⟨"quantity", "int", AggregationType.sum, false, Option.none⟩]
    dimension_keys := ["date_key"] }

def cleanDateDim : DimensionTable :=
  { name := "dim_date"
    natural_key := ["date_id"]
    surrogate_key := "date_key"
    scd_strategy := SCDType.type_1
    attributes := [⟨"year", "int", false⟩, ⟨"quarter", "int", false⟩,
      ⟨"month", "int", false⟩]
    parent_dimension := Option.none }

def cleanSub : SchemaSubmission :=
  { fact_tables := [cleanSalesFact]
    dimension_tables := [cleanDateDim]
    relationships := [⟨"fact_sales", "dim_date", "date_key", "date_key",
      "many-to-one", false, Option.none⟩]
    bridge_tables := [] }

def cleanResult : EvaluationResult :=
  (SchemaEvaluator.evaluate plainCtx cleanSub).toOption.getD ⟨0, 0, []⟩

/-- Witness for C1 at a concrete configuration and submission on which
`SchemaEvaluator.evaluate` succeeds. -/
theorem evaluation_boundedness_witness :
    (∀ s ∈ cleanResult.axis_scores, 0 ≤ s.score ∧ s.score ≤ s.max_score) ∧
    cleanResult.total_score
      = (cleanResult.axis_scores.map (fun s => s.score)).sum :=
  evaluation_boundedness plainCtx cleanSub cleanResult (by rfl)

/-- The C2 scenario: a fact table whose grain description mixes two
grains ("one row per transaction OR per line item"). -/
def mixedGrainFact : FactTable :=
  { name := "fact_transactions"
    grain_description := "one row per transaction OR per line item"
    grain_columns := [⟨"transaction_id", Option.none, true⟩]
    measures := [⟨"quantity", "int", AggregationType.sum, false, Option.none⟩]
    dimension_keys := [] }

def mixedGrainSub : SchemaSubmission :=
  { fact_tables := [mixedGrainFact]
    dimension_tables := []
    relationships := []
    bridge_tables := [] }

/-- C2 (code bug): on the mixed-grain scenario the Grain Correctness axis
assembles exactly the critical 25-point grain-violation deduction the
claim demands, but `result.py`'s `Deduction` dataclass does not declare
the `violation_type` / explanation fields the axis passes, so the actual
construction raises `TypeError` and the axis never returns a score. -/
theorem mixed_grain_scenario_code_bug :
    ((GrainCorrectnessAxis.deductions mixedGrainSub).any (fun d =>
      decide (d.severity = Severity.critical)
      && decide (d.violation_type = some ViolationType.grain_violation)
      && decide (25 ≤ d.points)) = true)
    ∧ (GrainCorrectnessAxis.evaluate mixedGrainSub).isOk = false := by
  decide

/-- The C7 scenario: a valid submission whose only relationship names a
dimension table that does not exist, with many-to-many cardinality. -/
def danglingRefSub : SchemaSubmission :=
  { fact_tables := [cleanSalesFact]
    dimension_tables := []
    relationships := [⟨"fact_sales", "dim_missing", "dim_key", "dim_key",
      "many-to-many", false, Option.none⟩]
    bridge_tables := [] }

/-- C7 (code bug): the axes do treat the dangling reference as "feature
absent" — the Grain Correctness axis assembles a fan-out-risk deduction
for it rather than failing on the lookup — but that deduction passes the
extended keywords `result.py`'s `Deduction` does not declare, so the
evaluation raises `TypeError` instead of returning a complete
`EvaluationResult`. -/
theorem dangling_reference_scenario_code_bug :
    ((GrainCorrectnessAxis.deductions danglingRefSub).any (fun d =>
      decide (d.violation_type = some ViolationType.fan_out_risk)) = true)
    ∧ (SchemaEvaluator.evaluate plainCtx danglingRefSub).isOk = false := by
  decide

/-- The C9 scenario configuration: `returns.reference_policy = sometimes`,
everything else off. -/
def sometimesReturnsCtx : EvaluationContext :=
  ⟨{ plainConfig with
      returns := ⟨ReturnsReferencePolicy.sometimes,
        ReturnsPricingPolicy.original_price⟩ }, ⟨43, []⟩⟩

/-- A returns fact with no nullable original-transaction column. -/
def returnsFactNoRef : FactTable :=
  { name := "fact_returns"
    grain_description := "a single row per return event"
    grain_columns := [⟨"return_id", Option.none, true⟩]
    measures := [⟨"refund_amount_cents", "int", AggregationType.sum, false,
      Option.none⟩]
    dimension_keys := [] }

def returnsSub : SchemaSubmission :=
  { fact_tables := [returnsFactNoRef]
    dimension_tables := []
    relationships := []
    bridge_tables := [] }

/-- C9 counterexample: with `reference_policy = sometimes` and a
submitted `fact_returns` lacking any original-transaction column, the
Semantic Faithfulness axis and the Grain Correctness axis both emit *no*
deduction at all — in particular no major-severity deduction referencing
the returns fact.  The original-transaction-reference check of
`_check_returns_modeling` runs only under the `always` policy. -/
theorem returns_sometimes_scenario_counterexample :
    SemanticFaithfulnessAxis.deductions sometimesReturnsCtx returnsSub = []
    ∧ GrainCorrectnessAxis.deductions returnsSub = [] := by
  constructor <;> rfl

/-- C9 amended: with `returns.reference_policy = always` (not
`sometimes`), a submitted returns fact that has no original-transaction
column among its grain columns or dimension keys receives a
moderate-severity (not major) 10-point deduction from the Semantic
Faithfulness axis referencing that fact. -/
theorem returns_always_moderate_deduction (ctx : EvaluationContext)
    (submission : SchemaSubmission) (rf : FactTable)
    (hpol : ctx.config.returns.reference_policy
      = ReturnsReferencePolicy.always)
    (hrf : rf ∈ returnFactsOf submission)
    (hnoref : returnFactHasOrigRef rf = false) :
    ∃ d ∈ SemanticFaithfulnessAxis.deductions ctx submission,
      d.severity = Severity.moderate ∧ d.points = 10 ∧
      d.affected_elements = [rf.name] := by
  refine ⟨⟨10, "Return fact \x27" ++ rf.name ++
    "\x27 should reference original transaction", Severity.moderate,
    [rf.name], Option.none, Option.none, Option.none, Option.none⟩,
    ?_, rfl, rfl, rfl⟩
  unfold SemanticFaithfulnessAxis.deductions
  apply List.mem_append.2
  refine Or.inl ?_
  apply List.mem_append.2
  refine Or.inr ?_
  unfold SemanticFaithfulnessAxis.checkReturnsModeling
  have h1 : ctx.config.returns.reference_policy
      ≠ ReturnsReferencePolicy.never := by
    rw [hpol]
    intro h
    cases h
  rw [if_pos h1]
  apply List.mem_append.2
  refine Or.inr ?_
  rw [if_pos hpol]
  apply List.mem_flatMap.2
  refine ⟨rf, hrf, ?_⟩
  rw [hnoref]
  simp

/-- The C9 amended scenario at a concrete input: `always` policy,
`fact_returns` with no original-transaction column. -/
def alwaysReturnsCtx : EvaluationContext :=
  ⟨{ plainConfig with
      returns := ⟨ReturnsReferencePolicy.always,
        ReturnsPricingPolicy.original_price⟩ }, ⟨44, []⟩⟩

/-- Witness for the amended C9 theorem. -/
theorem returns_always_moderate_deduction_witness :
    ∃ d ∈ SemanticFaithfulnessAxis.deductions alwaysReturnsCtx returnsSub,
      d.severity = Severity.moderate ∧ d.points = 10 ∧
      d.affected_elements = [returnsFactNoRef.name] :=
  returns_always_moderate_deduction alwaysReturnsCtx returnsSub
    returnsFactNoRef (by rfl) (by decide) (by rfl)

end DimModSim
